import Mathlib

/-!
Shallow embedding of the detection-and-scoring engine of the `cyber`
repository (backend/app/detection/: campaign_scoring.py,
coordination_detection.py, bot_detection.py, burst_detection.py), together
with theorems settling the frozen specification claims.

Modelling conventions:
* Python floats are embedded as real numbers (`ℝ`); quantities that the code
  only ever computes by rational arithmetic are kept in `ℚ` or `ℕ`.
* Timestamps (`posted_at`, `account_created_at`, the wall clock read by
  `datetime.now()`) are rationals measured in minutes; `timedelta.days` is
  the floor of the difference divided by `1440`.
* A Python value that may be absent (`dict.get` returning `None`) is an
  `Option`; `post.get('author', {})` is modelled by a total `author` field
  whose "absent" value is `emptyAuthor`.
* Every top-level entry point receives the wall-clock reading `now` that the
  Python runtime would provide ambiently; functions whose source never calls
  `datetime.now()` simply ignore it.
* Sub-result dictionaries that the code initialises to `{}` and fills in
  conditionally are `Option` structures (`none` = the empty dict, which is
  falsy in the source's truthiness tests).
* List fields that the source initialises and never writes nor reads
  (`synchronized_bursts`, `coordinated_amplification`,
  `coordinated_behaviors`) and string fields built by float interpolation
  (`evidence` / `message` texts) are omitted or kept as the static text.
-/

namespace Cyber

/-- Mean of a list of rationals, `0` on the empty list (all call sites in the
source guard non-emptiness before calling `np.mean`). -/
def qmean (l : List ℚ) : ℚ := l.sum / l.length

/-- Mean of a list of reals, `0` on the empty list. -/
noncomputable def rmean (l : List ℝ) : ℝ := l.sum / l.length

/-- Python `str.strip()` (structural, so that concrete inputs evaluate). -/
def pyStrip (s : String) : String :=
  String.mk (((s.data.dropWhile Char.isWhitespace).reverse.dropWhile
    Char.isWhitespace).reverse)

/-- Python truthiness of an optional string (`None` and `''` are falsy). -/
def strTruthy : Option String → Bool
  | none => false
  | some s => !s.isEmpty

/-- Python `a or b` on optional strings: keeps `a` when truthy, else `b`. -/
def pyOr (a b : Option String) : Option String :=
  if strTruthy a then a else b

/-- `collections.Counter` in first-occurrence order: value with multiplicity. -/
def counter {α : Type} [DecidableEq α] (l : List α) : List (α × ℕ) :=
  l.foldl (fun acc x =>
    if (acc.map Prod.fst).contains x then
      acc.map (fun p => if p.1 = x then (p.1, p.2 + 1) else p)
    else acc ++ [(x, 1)]) []

/-- Author record (profile fields used by the detectors; absent dict keys are
`none` / zero defaults, matching `author.get(...)` fallbacks). -/
structure Author where
  platform_user_id : Option String
  username : Option String
  followers_count : ℕ
  following_count : ℕ
  posts_count : ℕ
  verified : Bool
  bio : String
  location : String
  url : String
  profile_image_url : String
  account_created_at : Option ℚ
  deriving Repr, DecidableEq

/-- The empty author dict `{}` (what `post.get('author', {})` yields). -/
def emptyAuthor : Author :=
  ⟨none, none, 0, 0, 0, false, "", "", "", "", none⟩

/-- Post record; `posted_at` is `none` when the key is missing. -/
structure Post where
  platform_post_id : Option String
  text_content : String
  posted_at : Option ℚ
  author : Author
  hashtags : List String
  mentions : List String
  urls : List String
  likes_count : ℕ
  retweets_count : ℕ
  replies_count : ℕ
  platform : String
  language : String
  deriving Repr, DecidableEq

/-- `author.get('platform_user_id') or author.get('username')`. -/
def authorId (a : Author) : Option String :=
  pyOr a.platform_user_id a.username

/-- `timedelta.days` of `now - created`, in days (floor division), used by
`_calculate_account_age`; `0` when the creation time is absent. -/
def accountAge (now : ℚ) (created_at : Option ℚ) : ℤ :=
  match created_at with
  | none => 0
  | some c => ⌊(now - c) / 1440⌋

end Cyber

namespace Cyber.Coordination

open Cyber

/-- `i < j` index pairs, in the source's `for i … for j in range(i+1, …)` order. -/
def indexPairs (n : ℕ) : List (ℕ × ℕ) :=
  (List.range n).flatMap fun i => ((List.range n).drop (i + 1)).map fun j => (i, j)

/-- Metadata kept per non-empty text (`_detect_text_similarity_coordination`);
the `author` key falls back to `'unknown'`. -/
structure PostMeta where
  index : ℕ
  post_id : Option String
  author : String
  timestamp : Option ℚ
  deriving Repr, DecidableEq, Inhabited

def postMeta (i : ℕ) (p : Post) : PostMeta :=
  ⟨i, p.platform_post_id, p.author.username.getD "unknown", p.posted_at⟩

/-- Stripped texts with their metadata, skipping posts whose stripped
`text_content` is empty. -/
def textsAndMeta (posts : List Post) : List (String × PostMeta) :=
  posts.enum.filterMap fun ip =>
    let t := pyStrip ip.2.text_content
    if t.isEmpty then none else some (t, postMeta ip.1 ip.2)

/-- Modelled from the spec: the sparse term-weighting scheme of the external
`sklearn` `TfidfVectorizer(ngram_range=(1,3), stop_words='english')` together
with `cosine_similarity` — word tokens of length ≥ 2, lowercased,
English-stopword-filtered, 1–3-grams, smoothed idf `log((1+n)/(1+df)) + 1`,
and cosine of the resulting term vectors.  (The `max_features=1000`
truncation is not modelled; it only matters for vocabularies above 1000
terms and affects none of the bounds proved below.) -/
def tokenChar (c : Char) : Bool := c.isAlphanum || c = '_'

/-- A representative English stop-word list (subset of sklearn's). -/
def englishStopwords : List String :=
  ["a", "about", "above", "after", "again", "all", "also", "am", "an", "and",
   "any", "are", "as", "at", "be", "because", "been", "before", "being",
   "below", "between", "both", "but", "by", "can", "could", "did", "do",
   "does", "down", "during", "each", "few", "for", "from", "further", "had",
   "has", "have", "he", "her", "here", "hers", "him", "his", "how", "if",
   "in", "into", "is", "it", "its", "just", "me", "more", "most", "my", "no",
   "nor", "not", "now", "of", "off", "on", "once", "only", "or", "other",
   "our", "out", "over", "own", "same", "she", "so", "some", "such", "than",
   "that", "the", "their", "them", "then", "there", "these", "they", "this",
   "those", "through", "to", "too", "under", "until", "up", "very", "was",
   "we", "were", "what", "when", "where", "which", "while", "who", "whom",
   "why", "will", "with", "you", "your", "yours"]

/-- Maximal runs of token characters (the `\w\w+` word splitter), with the
accumulator kept reversed. -/
def splitRunsAux : List Char → List Char → List (List Char)
  | [], acc => if acc.isEmpty then [] else [acc.reverse]
  | c :: rest, acc =>
    if tokenChar c then splitRunsAux rest (c :: acc)
    else (if acc.isEmpty then [] else [acc.reverse]) ++ splitRunsAux rest []

def tokenize (s : String) : List String :=
  (((splitRunsAux (s.data.map Char.toLower) []).map fun cs =>
    String.mk cs).filter fun w => 2 ≤ w.length).filter
    fun w => !englishStopwords.contains w

/-- All contiguous 1-, 2- and 3-grams of a token list, space-joined. -/
def ngramsUpTo3 (toks : List String) : List String :=
  ([1, 2, 3].flatMap fun n =>
    (List.range (toks.length + 1 - n)).map fun i =>
      " ".intercalate ((toks.drop i).take n))

def docTerms (s : String) : List String := ngramsUpTo3 (tokenize s)

/-- Vocabulary of a document collection (distinct terms). -/
def vocab (docs : List String) : List String := (docs.flatMap docTerms).dedup

/-- Raw term count of `t` in document `d`. -/
def termCount (d t : String) : ℕ := ((docTerms d).filter (· = t)).length

/-- Document frequency of `t` in the collection. -/
def docFreq (docs : List String) (t : String) : ℕ :=
  (docs.filter fun d => (docTerms d).contains t).length

/-- Smoothed inverse document frequency, `log((1+n)/(1+df)) + 1`. -/
noncomputable def idf (docs : List String) (t : String) : ℝ :=
  Real.log ((1 + docs.length) / (1 + docFreq docs t)) + 1

/-- tf–idf vector of a document over the collection's vocabulary. -/
noncomputable def tfidfVector (docs : List String) (d : String) :
    Fin (vocab docs).length → ℝ :=
  fun t => (termCount d ((vocab docs).get t) : ℝ) * idf docs ((vocab docs).get t)

noncomputable def dotF {m : ℕ} (v w : Fin m → ℝ) : ℝ := ∑ i, v i * w i

noncomputable def normF {m : ℕ} (v : Fin m → ℝ) : ℝ := Real.sqrt (∑ i, v i ^ 2)

/-- Cosine similarity, `0` when either vector has zero norm. -/
noncomputable def cosineSim {m : ℕ} (v w : Fin m → ℝ) : ℝ :=
  if normF v = 0 ∨ normF w = 0 then 0 else dotF v w / (normF v * normF w)

noncomputable def tfidfSim (docs : List String) (d1 d2 : String) : ℝ :=
  cosineSim (tfidfVector docs d1) (tfidfVector docs d2)

/-- One above-threshold entry of `similar_pairs` (the truncated `text1` /
`text2` echo fields are omitted). -/
structure SimilarPair where
  post1 : PostMeta
  post2 : PostMeta
  similarity : ℝ

/-- The `similar_pairs` list: all `i < j` pairs of non-empty texts with
tf-idf cosine similarity strictly above the `0.8` threshold. -/
noncomputable def similarPairs (posts : List Post) : List SimilarPair :=
  let tm := textsAndMeta posts
  let texts := tm.map Prod.fst
  (indexPairs tm.length).filterMap fun ij =>
    let s := tfidfSim texts (texts.getD ij.1 "") (texts.getD ij.2 "")
    if (8 / 10 : ℝ) < s then
      some ⟨((tm.getD ij.1 ("", default)).2), ((tm.getD ij.2 ("", default)).2), s⟩
    else none

/-- A similar-content group (`size` is recomputed from `posts` at the end of
`_group_similar_content`). -/
structure ContentGroup where
  posts : List PostMeta
  avg_similarity : ℝ
  size : ℕ

def groupIds (g : ContentGroup) : List (Option String) := g.posts.map (·.post_id)

/-- Add the pair's missing posts to the found group and recompute its
`avg_similarity` over all pairs with both endpoints inside the group. -/
noncomputable def updateGroup (allPairs : List SimilarPair) (g : ContentGroup)
    (p : SimilarPair) : ContentGroup :=
  let posts1 := if (groupIds g).contains p.post1.post_id then g.posts
    else g.posts ++ [p.post1]
  let posts2 := if (posts1.map (·.post_id)).contains p.post2.post_id then posts1
    else posts1 ++ [p.post2]
  let ids := posts2.map (·.post_id)
  ⟨posts2,
    rmean ((allPairs.filter fun q =>
      ids.contains q.post1.post_id && ids.contains q.post2.post_id).map
        (·.similarity)),
    g.size⟩

/-- Place one pair: the first existing group sharing either post id is updated
in place; otherwise a fresh two-post group is appended at the end. -/
noncomputable def insertPair (allPairs : List SimilarPair) :
    List ContentGroup → SimilarPair → List ContentGroup
  | [], p => [⟨[p.post1, p.post2], p.similarity, 2⟩]
  | g :: rest, p =>
    if (groupIds g).contains p.post1.post_id
        || (groupIds g).contains p.post2.post_id then
      updateGroup allPairs g p :: rest
    else g :: insertPair allPairs rest p

/-- `CoordinationDetector._group_similar_content`. -/
noncomputable def groupSimilarContent (pairs : List SimilarPair) :
    List ContentGroup :=
  ((pairs.foldl (insertPair pairs) []).map fun g =>
    { g with size := g.posts.length }).mergeSort fun a b => decide (b.size ≤ a.size)

structure TextCoordination where
  similar_content_groups : List ContentGroup
  similarity_scores : List ℝ
  copy_paste_evidence : List SimilarPair
  coordination_strength : ℚ

noncomputable def defaultTextCoordination : TextCoordination := ⟨[], [], [], 0⟩

/-- `CoordinationDetector._detect_text_similarity_coordination`. -/
noncomputable def detectTextSimilarityCoordination (posts : List Post) :
    TextCoordination :=
  if posts.length < 2 then defaultTextCoordination
  else
    let tm := textsAndMeta posts
    if tm.length < 2 then defaultTextCoordination
    else
      let pairs := similarPairs posts
      ⟨groupSimilarContent pairs, pairs.map (·.similarity), pairs,
        (pairs.length : ℚ) / max 1 ((tm.length : ℚ) * (tm.length - 1) / 2)⟩

/-- One entry of `timestamped_posts` in `_detect_timing_coordination`. -/
structure TimedPost where
  timestamp : ℚ
  post_id : Option String
  author : String
  platform : String
  deriving Repr, DecidableEq

/-- Posts with a parseable `posted_at` (others are skipped). -/
def timedPosts (posts : List Post) : List TimedPost :=
  posts.filterMap fun p => p.posted_at.map fun t =>
    ⟨t, p.platform_post_id, p.author.username.getD "unknown", p.platform⟩

/-- Stable sort by timestamp (Python's `sorted` is stable). -/
def sortByTime (l : List TimedPost) : List TimedPost :=
  l.mergeSort fun a b => decide (a.timestamp ≤ b.timestamp)

structure TimingCluster where
  posts : List TimedPost
  start_time : ℚ
  end_time : ℚ
  duration_minutes : ℚ
  size : ℕ
  unique_authors : ℕ
  deriving Repr, DecidableEq

def mkCluster (c : List TimedPost) : TimingCluster :=
  ⟨c, ((c.head?.map (·.timestamp)).getD 0), ((c.getLast?.map (·.timestamp)).getD 0),
    ((c.getLast?.map (·.timestamp)).getD 0) - ((c.head?.map (·.timestamp)).getD 0),
    c.length, (c.map (·.author)).dedup.length⟩

/-- The greedy clustering loop: extend the current run while the gap to its
last element is at most 30 minutes, emitting runs of length ≥ 3. -/
def clusterStep : List TimedPost → List TimedPost → List TimingCluster
  | [], cur => if 3 ≤ cur.length then [mkCluster cur] else []
  | p :: rest, cur =>
    if p.timestamp - ((cur.getLast?.map (·.timestamp)).getD 0) ≤ 30 then
      clusterStep rest (cur ++ [p])
    else
      (if 3 ≤ cur.length then [mkCluster cur] else []) ++ clusterStep rest [p]

def timingClustersOf (sorted : List TimedPost) : List TimingCluster :=
  match sorted with
  | [] => []
  | p :: rest => clusterStep rest [p]

structure TemporalPatterns where
  hour_distribution : List (ℤ × ℕ)
  day_distribution : List (ℤ × ℕ)
  avg_interval_minutes : ℚ
  std_interval_minutes : ℝ
  min_interval_minutes : ℚ

/-- Consecutive differences `timestamps[i] - timestamps[i-1]`. -/
def diffs (l : List ℚ) : List ℚ := (l.zip l.tail).map fun ab => ab.2 - ab.1

/-- Population standard deviation (`np.std`). -/
noncomputable def qstd (l : List ℚ) : ℝ :=
  Real.sqrt ((qmean (l.map fun x => (x - qmean l) ^ 2) : ℚ) : ℝ)

/-- `_analyze_temporal_patterns` over sorted timestamped posts; `none` is the
`{}` returned on empty input.  Hours and weekdays are floors of the rational
minute timestamps (the epoch weekday offset is irrelevant to every claim). -/
noncomputable def temporalPatterns (tps : List TimedPost) :
    Option TemporalPatterns :=
  if tps.isEmpty then none
  else
    let ts := tps.map (·.timestamp)
    let ivs := diffs ts
    some ⟨counter (ts.map fun t => (⌊t / 60⌋ % 24 : ℤ)),
      counter (ts.map fun t => (⌊t / 1440⌋ % 7 : ℤ)),
      if ivs.isEmpty then 0 else qmean ivs,
      if ivs.isEmpty then 0 else qstd ivs,
      if ivs.isEmpty then 0 else (ivs.min?.getD 0)⟩

structure TimingCoordination where
  timing_clusters : List TimingCluster
  coordination_strength : ℚ
  temporal_patterns : Option TemporalPatterns

/-- `CoordinationDetector._detect_timing_coordination`. -/
noncomputable def detectTimingCoordination (posts : List Post) :
    TimingCoordination :=
  if posts.length < 2 then ⟨[], 0, none⟩
  else
    let tps := timedPosts posts
    if tps.length < 2 then ⟨[], 0, none⟩
    else
      let sorted := sortByTime tps
      let cls := timingClustersOf sorted
      ⟨cls, (((cls.map (·.size)).sum : ℚ)) / (tps.length : ℚ),
        temporalPatterns sorted⟩

/-- Behavioral feature record of `_extract_behavioral_features`. -/
structure BehavioralFeatures where
  followers_count : ℕ
  following_count : ℕ
  posts_count : ℕ
  verified : Bool
  account_age_days : ℤ
  posts_in_dataset : ℕ
  avg_post_length : ℚ
  hashtag_usage_rate : ℚ
  mention_usage_rate : ℚ
  url_sharing_rate : ℚ
  avg_likes : ℚ
  avg_retweets : ℚ
  avg_replies : ℚ
  deriving Repr, DecidableEq

def behavioralFeatures (now : ℚ) (a : Author) (posts : List Post) :
    BehavioralFeatures :=
  let uid := authorId a
  let ap := posts.filter fun p =>
    p.author.platform_user_id == uid || p.author.username == uid
  ⟨a.followers_count, a.following_count, a.posts_count, a.verified,
    accountAge now a.account_created_at, ap.length,
    if ap.isEmpty then 0 else qmean (ap.map fun p => (p.text_content.length : ℚ)),
    if ap.isEmpty then 0 else qmean (ap.map fun p => (p.hashtags.length : ℚ)),
    if ap.isEmpty then 0 else qmean (ap.map fun p => (p.mentions.length : ℚ)),
    if ap.isEmpty then 0 else qmean (ap.map fun p => (p.urls.length : ℚ)),
    if ap.isEmpty then 0 else qmean (ap.map fun p => (p.likes_count : ℚ)),
    if ap.isEmpty then 0 else qmean (ap.map fun p => (p.retweets_count : ℚ)),
    if ap.isEmpty then 0 else qmean (ap.map fun p => (p.replies_count : ℚ))⟩

/-- The 8-entry feature vector of `_calculate_behavioral_similarity`, with
`log(x+1)` scaling on the four heavy-tailed entries. -/
noncomputable def behavioralVector (f : BehavioralFeatures) : Fin 8 → ℝ :=
  ![Real.log ((f.followers_count : ℝ) + 1), Real.log ((f.following_count : ℝ) + 1),
    (f.account_age_days : ℝ), (f.avg_post_length : ℝ),
    (f.hashtag_usage_rate : ℝ), (f.mention_usage_rate : ℝ),
    Real.log ((f.avg_likes : ℝ) + 1), Real.log ((f.avg_retweets : ℝ) + 1)]

/-- Cosine similarity of behavioral vectors, `0` on zero norm and clamped
below by `0` (`max(0.0, similarity)`). -/
noncomputable def behavioralSimilarity (f1 f2 : BehavioralFeatures) : ℝ :=
  let v1 := behavioralVector f1
  let v2 := behavioralVector f2
  if normF v1 = 0 ∨ normF v2 = 0 then 0
  else max 0 (dotF v1 v2 / (normF v1 * normF v2))

/-- Insertion-ordered dict update (later assignments overwrite the value but
keep the first insertion position). -/
def dictInsert {β : Type} (k : String) (v : β) (d : List (String × β)) :
    List (String × β) :=
  if (d.map Prod.fst).contains k then
    d.map fun p => if p.1 = k then (k, v) else p
  else d ++ [(k, v)]

/-- The `author_features` dict, keyed by truthy author ids. -/
def authorFeatureList (now : ℚ) (posts : List Post) (authors : List Author) :
    List (String × BehavioralFeatures) :=
  authors.foldl (fun d a =>
    if strTruthy (authorId a) then
      dictInsert ((authorId a).getD "") (behavioralFeatures now a posts) d
    else d) []

structure BehavioralPair where
  author1 : String
  author2 : String
  similarity : ℝ

noncomputable def behavioralPairs (d : List (String × BehavioralFeatures)) :
    List BehavioralPair :=
  (indexPairs d.length).filterMap fun ij =>
    match d.get? ij.1, d.get? ij.2 with
    | some a, some b =>
      let s := behavioralSimilarity a.2 b.2
      if (7 / 10 : ℝ) < s then some ⟨a.1, b.1, s⟩ else none
    | _, _ => none

structure BehavioralCoordination where
  similar_profiles : List BehavioralPair
  coordination_strength : ℚ

/-- `CoordinationDetector._detect_behavioral_coordination`. -/
noncomputable def detectBehavioralCoordination (now : ℚ) (authors : List Author)
    (posts : List Post) : BehavioralCoordination :=
  if authors.length < 2 then ⟨[], 0⟩
  else
    let d := authorFeatureList now posts authors
    let ps := behavioralPairs d
    ⟨ps, (ps.length : ℚ) / max 1 ((d.length : ℚ) * (d.length - 1) / 2)⟩

/-- Undirected interaction graph over author-id nodes with mention edges
(adjacency kept as an unordered edge list with multiplicity weights). -/
structure InteractionNetwork where
  nodes : List String
  edges : List (String × String × ℕ)
  deriving Repr, DecidableEq

def addNode (g : InteractionNetwork) (id : String) : InteractionNetwork :=
  if g.nodes.contains id then g else { g with nodes := g.nodes ++ [id] }

def bumpEdge : List (String × String × ℕ) → String → String →
    List (String × String × ℕ)
  | [], u, v => [(u, v, 1)]
  | e :: rest, u, v =>
    if (e.1 = u ∧ e.2.1 = v) ∨ (e.1 = v ∧ e.2.1 = u) then
      (e.1, e.2.1, e.2.2 + 1) :: rest
    else e :: bumpEdge rest u v

/-- `CoordinationDetector._build_interaction_network`: author nodes plus
mention edges between known, distinct nodes. -/
def buildInteractionNetwork (posts : List Post) (authors : List Author) :
    InteractionNetwork :=
  let g0 := authors.foldl (fun g a =>
    if strTruthy (authorId a) then addNode g ((authorId a).getD "") else g)
    ⟨[], []⟩
  posts.foldl (fun g p =>
    match pyOr p.author.platform_user_id p.author.username with
    | some aid =>
      p.mentions.foldl (fun g m =>
        if g.nodes.contains m && g.nodes.contains aid && m ≠ aid then
          { g with edges := bumpEdge g.edges aid m }
        else g) g
    | none => g) g0

def adjacent (g : InteractionNetwork) (u v : String) : Bool :=
  g.edges.any fun e => (e.1 = u ∧ e.2.1 = v) ∨ (e.1 = v ∧ e.2.1 = u)

def neighbors (g : InteractionNetwork) (v : String) : List String :=
  g.edges.filterMap fun e =>
    if e.1 = v then some e.2.1 else if e.2.1 = v then some e.1 else none

def degree (g : InteractionNetwork) (v : String) : ℕ := (neighbors g v).length

/-- Local clustering coefficient of a node (`nx.average_clustering` summand):
fraction of adjacent neighbor pairs, `0` for degree < 2. -/
def localClustering (g : InteractionNetwork) (v : String) : ℚ :=
  let nv := neighbors g v
  let d := nv.length
  if d < 2 then 0
  else
    let tri := ((indexPairs d).filter fun ij =>
      adjacent g (nv.getD ij.1 "") (nv.getD ij.2 "")).length
    (tri : ℚ) / ((d : ℚ) * (d - 1) / 2)

def mergeParts (parts : List (List String)) (u v : String) :
    List (List String) :=
  match parts.find? (·.contains u), parts.find? (·.contains v) with
  | some cu, some cv =>
    if cu = cv then parts
    else (cu ++ cv) :: parts.filter fun c => c ≠ cu ∧ c ≠ cv
  | _, _ => parts

/-- Number of connected components (`nx.number_connected_components`). -/
def componentCount (g : InteractionNetwork) : ℕ :=
  (g.edges.foldl (fun ps e => mergeParts ps e.1 e.2.1)
    (g.nodes.map fun v => [v])).length

structure NetworkAnalysis where
  node_count : ℕ
  edge_count : ℕ
  density : ℚ
  clustering_coefficient : ℚ
  connected_components : ℕ
  suspicious_patterns : List String
  deriving Repr, DecidableEq

/-- `CoordinationDetector._analyze_network_structure`. -/
def analyzeNetworkStructure (g : InteractionNetwork) : NetworkAnalysis :=
  let n := g.nodes.length
  if n < 2 then ⟨n, g.edges.length, 0, 0, 0, []⟩
  else
    let density : ℚ := 2 * g.edges.length / ((n : ℚ) * (n - 1))
    let clustering := qmean (g.nodes.map (localClustering g))
    let degrees := g.nodes.map (degree g)
    let maxd := degrees.max?.getD 0
    let avgd : ℚ := qmean (degrees.map fun d => (d : ℚ))
    ⟨n, g.edges.length, density, clustering, componentCount g,
      (if 7 / 10 < clustering ∧ density < 3 / 10 then
        ["high_clustering_low_density"] else []) ++
      (if 3 * avgd < (maxd : ℚ) ∧ 10 < maxd then
        ["star_network_structure"] else [])⟩

structure RapidEvent where
  hashtag : String
  post_count : ℕ
  time_span_hours : ℚ
  amplification_rate : ℚ
  deriving Repr, DecidableEq

structure AmplificationPatterns where
  rapid_amplification_events : List RapidEvent
  amplification_strength : ℚ
  deriving Repr, DecidableEq

def dictAppend (k : String) (p : Post) (d : List (String × List Post)) :
    List (String × List Post) :=
  if (d.map Prod.fst).contains k then
    d.map fun e => if e.1 = k then (e.1, e.2 ++ [p]) else e
  else d ++ [(k, [p])]

/-- The `hashtag_groups` defaultdict, in first-appearance key order. -/
def hashtagGroups (posts : List Post) : List (String × List Post) :=
  posts.foldl (fun d p => p.hashtags.foldl (fun d h => dictAppend h p d) d) []

/-- `CoordinationDetector._detect_amplification_patterns`: hashtags with ≥ 5
timestamped posts all within a 2-hour span. -/
def detectAmplificationPatterns (posts : List Post) : AmplificationPatterns :=
  let groups := hashtagGroups posts
  let rapid := groups.filterMap fun hg =>
    if 5 ≤ hg.2.length then
      let ts := hg.2.filterMap (·.posted_at)
      if 5 ≤ ts.length then
        let sorted := ts.mergeSort fun a b => decide (a ≤ b)
        let span := ((sorted.getLast?.getD 0) - (sorted.head?.getD 0)) / 60
        if span < 2 then
          some ⟨hg.1, hg.2.length, span, (hg.2.length : ℚ) / max 1 span⟩
        else none
      else none
    else none
  ⟨rapid, (rapid.length : ℚ) / max 1 (groups.length : ℚ)⟩

/-- `CoordinationDetector._calculate_coordination_score`: fixed-weight sum of
the five strengths, network strength normalised as `min(1, patterns/3)`,
capped at `1`. -/
noncomputable def calculateCoordinationScore (text : TextCoordination)
    (timing : TimingCoordination) (behavioral : BehavioralCoordination)
    (network : NetworkAnalysis) (ampl : AmplificationPatterns) : ℝ :=
  min 1 ((text.coordination_strength : ℝ) * (30 / 100)
    + (timing.coordination_strength : ℝ) * (25 / 100)
    + (behavioral.coordination_strength : ℝ) * (20 / 100)
    + min 1 ((network.suspicious_patterns.length : ℝ) / 3) * (15 / 100)
    + (ampl.amplification_strength : ℝ) * (10 / 100))

/-- A coordinated group (the float-interpolated `evidence` text is omitted;
the set-ordering of timing members is modelled as first-occurrence dedup). -/
structure CoordinatedGroup where
  type : String
  members : List String
  size : ℕ
  risk_level : String

/-- `CoordinationDetector._identify_coordinated_groups` (the
`behavioral_coord` argument is accepted and unused, as in the source). -/
noncomputable def identifyCoordinatedGroups (text : TextCoordination)
    (timing : TimingCoordination) (_behavioral : BehavioralCoordination) :
    List CoordinatedGroup :=
  (text.similar_content_groups.filterMap fun g =>
    if 3 ≤ g.size then
      some ⟨"text_similarity", g.posts.map (·.author), g.size,
        if (9 / 10 : ℝ) < g.avg_similarity then "high" else "medium"⟩
    else none)
  ++ timing.timing_clusters.filterMap fun c =>
    if 3 ≤ c.size then
      some ⟨"timing_coordination", (c.posts.map (·.author)).dedup, c.size,
        if c.duration_minutes < 5 then "high" else "medium"⟩
    else none

/-- `CoordinationDetector._generate_risk_indicators`. -/
noncomputable def generateRiskIndicators (score : ℝ)
    (groups : List CoordinatedGroup) : List String :=
  (if (8 / 10 : ℝ) < score then ["extremely_high_coordination"]
    else if (6 / 10 : ℝ) < score then ["high_coordination"] else [])
  ++ (if groups.any fun g => g.risk_level == "high" then
      ["high_risk_coordinated_groups"] else [])
  ++ (if groups.any fun g => g.type == "text_similarity" then
      ["copy_paste_behavior"] else [])
  ++ (if groups.any fun g => g.type == "timing_coordination" then
      ["synchronized_posting"] else [])

/-- `_extract_authors_from_posts` (first occurrence wins per truthy id). -/
def extractAuthors (posts : List Post) : List Author :=
  (posts.foldl (fun (d : List (String × Author)) p =>
    if strTruthy (authorId p.author) then
      let uid := (authorId p.author).getD ""
      if (d.map Prod.fst).contains uid then d else d ++ [(uid, p.author)]
    else d) []).map Prod.snd

structure CoordinationResult where
  total_posts : ℕ
  total_authors : ℕ
  coordination_score : ℝ
  suspected_coordination : Bool
  text_coordination : TextCoordination
  timing_coordination : TimingCoordination
  behavioral_coordination : BehavioralCoordination
  network_analysis : NetworkAnalysis
  amplification_patterns : AmplificationPatterns
  coordinated_groups : List CoordinatedGroup
  risk_indicators : List String

/-- `_empty_coordination_result` (absent dict keys modelled as zero/empty). -/
noncomputable def emptyCoordinationResult : CoordinationResult :=
  ⟨0, 0, 0, false, ⟨[], [], [], 0⟩, ⟨[], 0, none⟩, ⟨[], 0⟩, ⟨0, 0, 0, 0, 0, []⟩,
    ⟨[], 0⟩, [], []⟩

/-- `CoordinationDetector.detect_coordination`.  `now` is the ambient wall
clock (read through `_calculate_account_age`). -/
noncomputable def detectCoordination (now : ℚ) (posts : List Post)
    (authors : Option (List Author)) : CoordinationResult :=
  if posts.length < 3 then emptyCoordinationResult
  else
    let auths := authors.getD (extractAuthors posts)
    let network := buildInteractionNetwork posts auths
    let text := detectTextSimilarityCoordination posts
    let timing := detectTimingCoordination posts
    let behavioral := detectBehavioralCoordination now auths posts
    let netAnalysis := analyzeNetworkStructure network
    let ampl := detectAmplificationPatterns posts
    let score := calculateCoordinationScore text timing behavioral netAnalysis ampl
    let groups := identifyCoordinatedGroups text timing behavioral
    ⟨posts.length, auths.length, score, decide (6 / 10 < score), text, timing,
      behavioral, netAnalysis, ampl, groups, generateRiskIndicators score groups⟩

end Cyber.Coordination

namespace Cyber.Bot

open Cyber Cyber.Coordination

/-- Does predicate `p` hold of some suffix of `l` (an unanchored `re.search`)? -/
def anySuffix (p : List Char → Bool) : List Char → Bool
  | [] => p []
  | c :: t => p (c :: t) || anySuffix p t

def isLowerAZ (c : Char) : Bool := 'a' ≤ c && c ≤ 'z'

/-- `\d+[a-z]*$`: one or more digits, then lowercase letters to the end. -/
def digitsThenLettersEnd (l : List Char) : Bool :=
  let sp := l.span (·.isDigit)
  !sp.1.isEmpty && sp.2.all isLowerAZ

/-- `re.search(r'user\d+[a-z]*$', username)`. -/
def matchesUserNum (l : List Char) : Bool :=
  anySuffix (fun s => "user".data.isPrefixOf s && digitsThenLettersEnd (s.drop 4)) l

/-- `re.search(r'[a-z]{2}\d+[a-z]{2}', username)` (character classes are
disjoint, so greedy matching coincides with this span-based test). -/
def matchesLettersDigitsLetters (l : List Char) : Bool :=
  anySuffix (fun s =>
    match s with
    | a :: b :: rest =>
      isLowerAZ a && isLowerAZ b &&
        (let sp := rest.span (·.isDigit)
         !sp.1.isEmpty &&
           (match sp.2 with
            | c :: d :: _ => isLowerAZ c && isLowerAZ d
            | _ => false))
    | _ => false) l

/-- Python `needle in haystack` on strings. -/
def containsSub (haystack needle : String) : Bool :=
  anySuffix (fun s => needle.data.isPrefixOf s) haystack.data

/-- `BotDetector._analyze_username_pattern`. -/
def analyzeUsernamePattern (a : Author) : ℚ :=
  let username := (a.username.getD "").toLower
  if username.isEmpty then 1 / 2
  else
    min 1
      ((if matchesUserNum username.data then 4 / 10 else 0)
        + (if (1 / 2 : ℚ) <
            ((username.data.filter (·.isDigit)).length : ℚ) / username.length
          then 3 / 10 else 0)
        + (if matchesLettersDigitsLetters username.data then 3 / 10 else 0)
        + (if (username.data.dedup.length : ℚ) < (username.length : ℚ) * (6 / 10)
          then 2 / 10 else 0)
        + (if ["account", "user", "person", "real", "official"].any
            (containsSub username) then 2 / 10 else 0))

/-- `BotDetector._analyze_profile_completeness` (inverted completeness). -/
def analyzeProfileCompleteness (a : Author) : ℚ :=
  let fieldScore : ℚ :=
    (if a.bio.isEmpty then 0 else 1) + (if a.location.isEmpty then 0 else 1)
      + (if a.url.isEmpty then 0 else 1)
      + (if a.profile_image_url.isEmpty then 0 else 1)
  let bioBonus : ℚ :=
    if a.bio.isEmpty then 0
    else
      (if 50 < a.bio.length then 1 / 2 else 0)
        + (if !(["follow", "subscribe", "link", "click"].any
            (containsSub a.bio.toLower)) then 3 / 10 else 0)
  1 - (fieldScore + bioBonus) / (48 / 10)

/-- `BotDetector._analyze_posting_frequency`: banded posts-per-day rate. -/
def analyzePostingFrequency (posts : List Post) : ℚ :=
  if posts.isEmpty then 0
  else
    let ts := (posts.filterMap (·.posted_at)).mergeSort fun a b => decide (a ≤ b)
    if ts.length < 2 then 0
    else
      let span := ((ts.getLast?.getD 0) - (ts.head?.getD 0)) / 1440
      if span = 0 then 1
      else
        let rate := (ts.length : ℚ) / span
        if 50 < rate then 1
        else if 20 < rate then 8 / 10
        else if 10 < rate then 6 / 10
        else if rate < 1 / 10 then 3 / 10
        else 0

/-- `BotDetector._analyze_temporal_patterns`: regular intervals, identical
posting minute, missing night-hour activity. -/
noncomputable def analyzeTemporalPatterns (posts : List Post) : ℚ :=
  if posts.length < 5 then 0
  else
    let ts := (posts.filterMap (·.posted_at)).mergeSort fun a b => decide (a ≤ b)
    if ts.length < 5 then 0
    else
      let ivs := diffs ts
      let regular : ℚ :=
        if !ivs.isEmpty ∧ 0 < qmean ivs ∧ qstd ivs / (qmean ivs : ℝ) < 1 / 10
        then 1 / 2 else 0
      let sameMinute : ℚ :=
        if (ts.map fun t => (⌊t⌋ % 60 : ℤ)).dedup.length = 1 then 4 / 10 else 0
      let hours := ts.map fun t => (⌊t / 60⌋ % 24 : ℤ)
      let noNight : ℚ :=
        if (hours.filter fun h => 0 ≤ h ∧ h ≤ 6).isEmpty ∧ 10 < hours.length
        then 3 / 10 else 0
      min 1 (regular + sameMinute + noNight)

/-- `BotDetector._analyze_content_diversity`. -/
def analyzeContentDiversity (posts : List Post) : ℚ :=
  if posts.isEmpty then 0
  else
    let texts := (posts.map (·.text_content)).filter fun t =>
      !(pyStrip t).isEmpty
    if texts.length < 2 then 0
    else
      let dup : ℚ :=
        if (texts.dedup.length : ℚ) / texts.length < 1 / 2 then 4 / 10 else 0
      let words := (" ".intercalate texts).toLower.splitOn " " |>.filter
        fun w => !w.isEmpty
      let wordDup : ℚ :=
        if !words.isEmpty ∧ (words.dedup.length : ℚ) / words.length < 3 / 10
        then 3 / 10 else 0
      let hashtagHeavy : ℚ :=
        if 5 < qmean (posts.map fun p => (p.hashtags.length : ℚ)) then 3 / 10
        else 0
      min 1 (dup + wordDup + hashtagHeavy)

/-- `BotDetector._analyze_engagement_patterns`. -/
def analyzeEngagementPatterns (posts : List Post) : ℚ :=
  if posts.isEmpty then 0
  else
    let ers := posts.filterMap fun p =>
      let total : ℕ := p.likes_count + p.retweets_count + p.replies_count
      if 0 < total then some ((p.likes_count : ℚ) / (total : ℚ), (total : ℚ))
      else none
    if ers.isEmpty then 0
    else
      (if qmean (ers.map Prod.snd) < 1 then 4 / 10 else 0)
        + (if 9 / 10 < qmean (ers.map Prod.fst) then 3 / 10 else 0)

/-- `BotDetector._analyze_network_behavior`. -/
def analyzeNetworkBehavior (a : Author) (posts : List Post) : ℚ :=
  let ratioScore : ℚ :=
    if 0 < a.following_count then
      let r := (a.followers_count : ℚ) / a.following_count
      if 100 < r then 3 / 10 else if r < 1 / 100 then 4 / 10 else 0
    else 0
  let followScore : ℚ :=
    if 2000 < a.following_count ∧ a.followers_count < 100 then 4 / 10 else 0
  let mentionScore : ℚ :=
    if !posts.isEmpty ∧ 3 < qmean (posts.map fun p => (p.mentions.length : ℚ))
    then 3 / 10 else 0
  min 1 (ratioScore + followScore + mentionScore)

def safeRatio (num den : ℚ) : ℚ := if den = 0 then 0 else num / den

/-- Feature record of `_extract_bot_features`. -/
structure BotFeatures where
  account_age_days : ℤ
  followers_count : ℕ
  following_count : ℕ
  posts_count : ℕ
  verified : Bool
  has_profile_image : Bool
  has_bio : Bool
  bio_length : ℕ
  username_length : ℕ
  posts_in_dataset : ℕ
  follower_following_ratio : ℚ
  deriving Repr, DecidableEq

def extractBotFeatures (now : ℚ) (a : Author) (posts : List Post) : BotFeatures :=
  ⟨accountAge now a.account_created_at, a.followers_count, a.following_count,
    a.posts_count, a.verified, !a.profile_image_url.isEmpty, !a.bio.isEmpty,
    a.bio.length, (a.username.getD "").length, posts.length,
    safeRatio a.followers_count a.following_count⟩

structure BotComponentScores where
  username_pattern : ℚ
  profile_completeness : ℚ
  posting_frequency : ℚ
  temporal_patterns : ℚ
  content_diversity : ℚ
  engagement_patterns : ℚ
  network_behavior : ℚ

structure BotResult where
  bot_likelihood_score : ℚ
  classification : String
  risk_level : String
  component_scores : Option BotComponentScores
  features : Option BotFeatures
  indicators : List String

/-- `_empty_bot_result` (empty `component_scores`/`features` dicts). -/
def emptyBotResult : BotResult := ⟨0, "unknown", "low", none, none, []⟩

noncomputable def botWeightedScore (s : BotComponentScores) : ℚ :=
  s.username_pattern * (15 / 100) + s.profile_completeness * (10 / 100)
    + s.posting_frequency * (20 / 100) + s.temporal_patterns * (15 / 100)
    + s.content_diversity * (15 / 100) + s.engagement_patterns * (10 / 100)
    + s.network_behavior * (15 / 100)

noncomputable def generateBotIndicators (s : BotComponentScores) : List String :=
  (if 1 / 2 < s.username_pattern then ["suspicious_username_pattern"] else [])
    ++ (if 7 / 10 < s.profile_completeness then ["incomplete_profile"] else [])
    ++ (if 6 / 10 < s.posting_frequency then ["unusual_posting_frequency"] else [])
    ++ (if 1 / 2 < s.temporal_patterns then ["automated_timing_patterns"] else [])
    ++ (if 1 / 2 < s.content_diversity then ["low_content_diversity"] else [])
    ++ (if 1 / 2 < s.engagement_patterns then ["unusual_engagement_patterns"]
      else [])
    ++ (if 1 / 2 < s.network_behavior then ["suspicious_network_behavior"] else [])

/-- `BotDetector.calculate_bot_likelihood` (an empty author dict yields the
neutral result). -/
noncomputable def calculateBotLikelihood (now : ℚ) (a : Author)
    (posts : List Post) : BotResult :=
  if a = emptyAuthor then emptyBotResult
  else
    let scores : BotComponentScores :=
      ⟨analyzeUsernamePattern a, analyzeProfileCompleteness a,
        analyzePostingFrequency posts, analyzeTemporalPatterns posts,
        analyzeContentDiversity posts, analyzeEngagementPatterns posts,
        analyzeNetworkBehavior a posts⟩
    let score := botWeightedScore scores
    let cls := if 7 / 10 ≤ score then ("likely_bot", "high")
      else if 1 / 2 ≤ score then ("suspicious", "medium")
      else ("likely_human", "low")
    ⟨score, cls.1, cls.2, some scores, some (extractBotFeatures now a posts),
      generateBotIndicators scores⟩

/-- `_calculate_bot_similarity`: mean of normalised per-feature closeness on
followers, following and account age. -/
def botSimilarity (f1 f2 : BotFeatures) : ℚ :=
  let cmp : ℚ → ℚ → ℚ := fun v1 v2 =>
    1 - |v1 - v2| / max (max v1 v2) 1
  qmean [cmp f1.followers_count f2.followers_count,
    cmp f1.following_count f2.following_count,
    cmp (f1.account_age_days : ℚ) (f2.account_age_days : ℚ)]

structure NetworkResult where
  network_detected : Bool
  bot_accounts : List (Author × BotResult)
  network_score : ℚ
  total_analyzed : ℕ
  potential_bots_count : ℕ

/-- `BotDetector.analyze_bot_network` (the small-input guard returns a dict
without `total_analyzed`/`potential_bots_count`; absent keys are modelled as
`0`). -/
noncomputable def analyzeBotNetwork (now : ℚ) (authors : List Author)
    (posts : List Post) : NetworkResult :=
  if authors.length < 3 then ⟨false, [], 0, 0, 0⟩
  else
    let botResults := authors.map fun a =>
      (a, calculateBotLikelihood now a
        (posts.filter fun p => p.author.platform_user_id == a.platform_user_id))
    let potentialBots := botResults.filter fun r => 1 / 2 < r.2.bot_likelihood_score
    let score : ℚ :=
      if 3 ≤ potentialBots.length then
        let creations := (potentialBots.filterMap fun r =>
          r.1.account_created_at).mergeSort fun a b => decide (a ≤ b)
        let creationScore : ℚ :=
          if 3 ≤ creations.length ∧
              (⌊((creations.getLast?.getD 0) - (creations.head?.getD 0)) / 1440⌋
                : ℤ) < 30
          then 4 / 10 else 0
        let simPairs := ((indexPairs potentialBots.length).filter fun ij =>
          match (potentialBots.get? ij.1).bind (·.2.features),
              (potentialBots.get? ij.2).bind (·.2.features) with
          | some g1, some g2 => decide (7 / 10 < botSimilarity g1 g2)
          | _, _ => false).length
        let totalPairs : ℚ :=
          (potentialBots.length : ℚ) * (potentialBots.length - 1) / 2
        creationScore
          + (if 0 < totalPairs then (simPairs : ℚ) / totalPairs * (6 / 10) else 0)
      else 0
    ⟨decide (6 / 10 < score), potentialBots, min 1 score, authors.length,
      potentialBots.length⟩

end Cyber.Bot

namespace Cyber.Burst

open Cyber Cyber.Coordination

/-- Hour bucket of a minute timestamp (`pd.resample('H')` floors to the hour). -/
def hourOf (t : ℚ) : ℤ := ⌊t / 60⌋

/-- `BurstDetector._prepare_time_series`: a contiguous, zero-filled hourly
histogram over `[min_hour, max_hour]`; bucket stamps are hour-aligned
minutes.  Posts without a `posted_at` are skipped. -/
def prepareTimeSeries (posts : List Post) : List (ℚ × ℕ) :=
  let ts := posts.filterMap (·.posted_at)
  if ts.isEmpty then []
  else
    let hs := ts.map hourOf
    let hmin := hs.min?.getD 0
    let hmax := hs.max?.getD 0
    (List.range (hmax - hmin + 1).toNat).map fun k =>
      (((hmin + k) * 60 : ℤ) , (hs.filter (· = hmin + k)).length)

/-- Expected rate of state `i`: `base_rate * s_factor^i` with `s_factor = 2`. -/
noncomputable def rate (b : ℚ) (i : Fin 3) : ℝ := (b : ℝ) * 2 ^ (i : ℕ)

/-- Poisson-style emission cost `-c*log(rate) + rate` (bare rate on zero
counts). -/
noncomputable def emission (b : ℚ) (c : ℕ) (i : Fin 3) : ℝ :=
  if 0 < c then -(c : ℝ) * Real.log (rate b i) + rate b i else rate b i

/-- Asymmetric transition cost: `(curr-prev) * gamma` upwards (`gamma = 1`),
free downwards. -/
def transCost (j i : Fin 3) : ℝ :=
  if (j : ℕ) < (i : ℕ) then (((i : ℕ) - (j : ℕ) : ℕ) : ℝ) * 1 else 0

/-- First index attaining the minimum (the `if total_cost < costs[t, s]`
update pattern and `np.argmin` both keep the earliest minimiser). -/
noncomputable def argmin3 (f : Fin 3 → ℝ) : Fin 3 :=
  if f 0 ≤ f 1 then (if f 0 ≤ f 2 then 0 else 2)
  else (if f 1 ≤ f 2 then 1 else 2)

/-- One column of the forward DP: new costs and backpointers from the
previous column and the hour's count. -/
noncomputable def dpStep (b : ℚ) (c : ℕ) (T : Fin 3 → ℝ) :
    (Fin 3 → ℝ) × (Fin 3 → Fin 3) :=
  let bp : Fin 3 → Fin 3 := fun i => argmin3 fun j => T j + transCost j i
  (fun i => T (bp i) + transCost (bp i) i + emission b c i, bp)

/-- Forward pass over the remaining counts, accumulating backpointer columns. -/
noncomputable def dpFold (b : ℚ) :
    List ℕ → (Fin 3 → ℝ) → List (Fin 3 → Fin 3) →
      ((Fin 3 → ℝ) × List (Fin 3 → Fin 3))
  | [], T, ps => (T, ps)
  | c :: rest, T, ps =>
    let s := dpStep b c T
    dpFold b rest s.1 (ps ++ [s.2])

/-- Backtracking along reversed backpointer columns, oldest state first. -/
def backtrackAux : List (Fin 3 → Fin 3) → Fin 3 → List (Fin 3)
  | [], s => [s]
  | p :: tl, s => backtrackAux tl (p s) ++ [s]

/-- The optimal-state backtrack of `_kleinberg_burst_detection`: initial
column from the first count's emissions, then forward DP and backtracking
from the cheapest final state. -/
noncomputable def kleinbergStates (b : ℚ) (counts : List ℕ) : List (Fin 3) :=
  match counts with
  | [] => []
  | c0 :: rest =>
    let r := dpFold b rest (fun i => emission b c0 i) []
    backtrackAux r.2.reverse (argmin3 r.1)

structure BurstEvent where
  start_time : ℚ
  end_time : ℚ
  duration_hours : ℕ
  intensity : ℚ
  total_posts : ℕ
  method : String
  deriving Repr, DecidableEq

/-- The burst record for state-run indices `[s, e)`. -/
def mkBurst (series : List (ℚ × ℕ)) (states : List ℕ) (s e : ℕ) : BurstEvent :=
  ⟨(series.getD s (0, 0)).1, (series.getD (e - 1) (0, 0)).1, e - s,
    qmean (((states.drop s).take (e - s)).map fun st => (st : ℚ)),
    (((series.drop s).take (e - s)).map Prod.snd).sum, "kleinberg"⟩

/-- Emit maximal runs of positive states as bursts (the source's
`burst_start` scan, including the run-to-the-end case). -/
def burstsGo (series : List (ℚ × ℕ)) (states : List ℕ) :
    List (ℕ × ℕ) → Option ℕ → List BurstEvent
  | [], none => []
  | [], some s => [mkBurst series states s states.length]
  | (i, st) :: rest, none =>
    if 0 < st then burstsGo series states rest (some i)
    else burstsGo series states rest none
  | (i, st) :: rest, some s =>
    if st = 0 then mkBurst series states s i :: burstsGo series states rest none
    else burstsGo series states rest (some s)

def extractBursts (series : List (ℚ × ℕ)) (states : List ℕ) : List BurstEvent :=
  burstsGo series states states.enum none

/-- `BurstDetector._kleinberg_burst_detection`. -/
noncomputable def kleinbergBurstDetection (series : List (ℚ × ℕ)) :
    List BurstEvent :=
  if series.length < 3 then []
  else
    let counts := series.map Prod.snd
    let b : ℚ := (counts.sum : ℚ) / (series.length : ℚ)
    if b = 0 then []
    else extractBursts series ((kleinbergStates b counts).map fun s => (s : ℕ))

/-- Sample standard deviation (`pandas` rolling `std`, `ddof = 1`). -/
noncomputable def sampleStd (l : List ℚ) : ℝ :=
  Real.sqrt (((l.map fun x => (x - qmean l) ^ 2).sum / (l.length - 1) : ℚ) : ℝ)

structure ZAnomaly where
  timestamp : ℚ
  count : ℕ
  z_score : ℝ
  expected : ℚ

/-- The centred rolling window of size `w` at index `i`
(`[i - (w - w/2 - 1), i + w/2]`, full windows only). -/
def windowSlice (counts : List ℕ) (w i : ℕ) : Option (List ℕ) :=
  if w ≤ i + (w / 2) + 1 ∧ i + (w / 2) < counts.length then
    some (((counts.drop (i + (w / 2) + 1 - w)).take w))
  else none

/-- `BurstDetector._zscore_anomaly_detection`: centred rolling mean/std with
global-statistics fallback at the edges, `z > 2.5` flags an anomaly. -/
noncomputable def zscoreAnomalies (series : List (ℚ × ℕ)) : List ZAnomaly :=
  if series.length < 3 then []
  else
    let counts := series.map Prod.snd
    let w := max 2 (min 24 (counts.length / 2))
    let gmean := qmean (counts.map fun c => (c : ℚ))
    let gstd : ℝ := qstd (counts.map fun c => (c : ℚ))
    (series.enum.filterMap fun ip =>
      let m : ℚ := match windowSlice counts w ip.1 with
        | some sl => qmean (sl.map fun c => (c : ℚ))
        | none => gmean
      let mr : ℝ := Rat.cast m
      let sd : ℝ := match windowSlice counts w ip.1 with
        | some sl => sampleStd (sl.map fun c => (c : ℚ))
        | none => gstd
      let z : ℝ := |((ip.2.2 : ℝ)) - mr| / (sd + 1 / 100000000)
      if (5 / 2 : ℝ) < z then some ⟨ip.2.1, ip.2.2, z, m⟩ else none)

structure PeakBurst where
  timestamp : ℚ
  count : ℕ
  height : ℕ
  prominence : ℚ
  deriving Repr, DecidableEq

/-- Prominence of a local maximum at `i`: drop to the lowest point between
the peak and the nearest higher ground on each side. -/
def peakProminence (counts : List ℕ) (i : ℕ) : ℚ :=
  let c := counts.getD i 0
  let left := (counts.take i).reverse
  let right := counts.drop (i + 1)
  let base : List ℕ → ℕ := fun side =>
    ((side.takeWhile fun x => x ≤ c) ++ []).foldl min c
  (c : ℚ) - (max (base left) (base right) : ℚ)

/-- Modelled from the spec: the external `scipy.signal.find_peaks` call —
local maxima above `max(mean + 2*std, 0.3*global_max)` with prominence at
least the global standard deviation and a minimum 2-hour separation enforced
by highest-first non-maximum suppression. -/
noncomputable def peakDetection (series : List (ℚ × ℕ)) : List PeakBurst :=
  if series.length < 3 then []
  else
    let counts := series.map Prod.snd
    let gmean : ℚ := qmean (counts.map fun c => (c : ℚ))
    let gstd : ℝ := qstd (counts.map fun c => (c : ℚ))
    let minHeight : ℝ := max ((gmean : ℝ) + 2 * gstd)
      (((counts.max?.getD 0 : ℕ) : ℝ) * (3 / 10))
    let cands := (List.range counts.length).filter fun i =>
      decide (0 < i) && decide (i + 1 < counts.length)
        && decide (counts.getD (i - 1) 0 < counts.getD i 0)
        && decide (counts.getD (i + 1) 0 < counts.getD i 0)
        && decide (minHeight ≤ (counts.getD i 0 : ℝ))
        && decide (gstd ≤ (peakProminence counts i : ℝ))
    let ordered := cands.mergeSort fun a b =>
      decide (counts.getD b 0 < counts.getD a 0)
        || (decide (counts.getD b 0 = counts.getD a 0) && decide (a ≤ b))
    let kept := ordered.foldl (fun acc i =>
      if acc.all fun j => 2 ≤ max (i - j) (j - i) then acc ++ [i] else acc) []
    ((kept.mergeSort fun a b => decide (a ≤ b)).map fun i =>
      ⟨(series.getD i (0, 0)).1, counts.getD i 0, counts.getD i 0,
        peakProminence counts i⟩)

/-- `_categorize_burst_intensity` bands (`'low'` fallback). -/
def categorizeBurstIntensity (x : ℚ) : String :=
  if 2 ≤ x ∧ x < 3 then "low"
  else if 3 ≤ x ∧ x < 4 then "medium"
  else if 4 ≤ x ∧ x < 6 then "high"
  else if 6 ≤ x then "extreme"
  else "low"

structure IntensityDistribution where
  mean_intensity : ℚ
  max_intensity : ℚ
  std_intensity : ℝ
  burst_levels : List (String × ℕ)

structure IntervalStats where
  mean_interval_hours : ℚ
  std_interval_hours : ℝ
  min_interval_hours : ℚ
  max_interval_hours : ℚ

structure BurstTemporalPatterns where
  hour_distribution : List (ℤ × ℕ)
  day_distribution : List (ℤ × ℕ)
  interval_statistics : Option IntervalStats

/-- `BurstDetector._analyze_temporal_patterns` over burst start times. -/
noncomputable def burstTemporalPatterns (times : List ℚ) :
    Option BurstTemporalPatterns :=
  if times.isEmpty then none
  else
    let ivs := (diffs times).map (· / 60)
    some ⟨counter (times.map fun t => (⌊t / 60⌋ % 24 : ℤ)),
      counter (times.map fun t => (⌊t / 1440⌋ % 7 : ℤ)),
      if times.length ≤ 1 then none
      else some ⟨qmean ivs, qstd ivs, ivs.min?.getD 0, ivs.max?.getD 0⟩⟩

/-- `Counter.most_common(k)`: by descending count, insertion order on ties. -/
def mostCommon {α : Type} [DecidableEq α] (k : ℕ) (l : List α) :
    List (α × ℕ) :=
  ((counter l).mergeSort fun a b => decide (b.2 ≤ a.2)).take k

structure HashtagAnalysis where
  top_hashtags : List (String × ℕ)
  unique_hashtags : ℕ
  total_hashtag_uses : ℕ
  deriving Repr, DecidableEq

structure AuthorAnalysis where
  unique_authors : ℕ
  top_authors : List (String × ℕ)
  posts_per_author : ℚ
  deriving Repr, DecidableEq

structure ContentAnalysis where
  hashtag_analysis : Option HashtagAnalysis
  author_analysis : Option AuthorAnalysis
  platform_analysis : List (String × ℕ)
  language_analysis : List (String × ℕ)
  deriving Repr, DecidableEq

/-- `BurstDetector._analyze_burst_content`: statistics of the posts whose
timestamps fall inside some burst window (timestampless posts never satisfy
the window comparison). -/
def analyzeBurstContent (posts : List Post) (bursts : List BurstEvent) :
    ContentAnalysis :=
  let bp := bursts.flatMap fun b => posts.filter fun p =>
    match p.posted_at with
    | some t => decide (b.start_time ≤ t) && decide (t ≤ b.end_time)
    | none => false
  if bp.isEmpty then ⟨none, none, [], []⟩
  else
    let allHashtags := bp.flatMap (·.hashtags)
    let authors := bp.map fun p => p.author.username.getD "unknown"
    ⟨if allHashtags.isEmpty then none
      else some ⟨mostCommon 10 allHashtags, allHashtags.dedup.length,
        allHashtags.length⟩,
      some ⟨authors.dedup.length, mostCommon 10 authors,
        if authors.isEmpty then 0 else (bp.length : ℚ) / (authors.dedup.length : ℚ)⟩,
      counter (bp.map (·.platform)), counter (bp.map (·.language))⟩

structure BurstAnalysis where
  kleinberg_count : ℕ
  zscore_count : ℕ
  peak_count : ℕ
  intensity_distribution : Option IntensityDistribution
  temporal_patterns : Option BurstTemporalPatterns
  content_analysis : ContentAnalysis

/-- `BurstDetector._analyze_burst_characteristics`. -/
noncomputable def analyzeBurstCharacteristics (posts : List Post)
    (kb : List BurstEvent) (za : List ZAnomaly) (pb : List PeakBurst) :
    BurstAnalysis :=
  let intensities := kb.map (·.intensity)
  ⟨kb.length, za.length, pb.length,
    if kb.isEmpty then none
    else some ⟨qmean intensities, intensities.max?.getD 0, qstd intensities,
      counter (kb.map fun b => categorizeBurstIntensity b.intensity)⟩,
    burstTemporalPatterns (kb.map (·.start_time)),
    analyzeBurstContent posts kb⟩

structure CoordinationIndicators where
  suspected_coordination : Bool
  coordination_score : ℚ
  indicators : List String

/-- `BurstDetector._detect_coordination_patterns`: four weighted indicator
conditions summed and capped at `1` (`suspected` at `score > 0.5`). -/
noncomputable def detectCoordinationPatterns (posts : List Post)
    (ba : BurstAnalysis) : CoordinationIndicators :=
  let syncInd := (ba.temporal_patterns.bind (·.interval_statistics)).isSome ∧
    ((ba.temporal_patterns.bind (·.interval_statistics)).elim (0 : ℝ)
      (·.std_interval_hours)) < 1
  let topCount : ℕ :=
    ((ba.content_analysis.hashtag_analysis.map
      (·.top_hashtags)).getD []).head?.elim 0 Prod.snd
  let hashInd := ba.content_analysis.hashtag_analysis.isSome ∧
    (posts.length : ℚ) * (1 / 2) < (topCount : ℚ)
  let ppa : ℚ :=
    (ba.content_analysis.author_analysis.map (·.posts_per_author)).getD 0
  let authorInd := ba.content_analysis.author_analysis.isSome ∧ 5 < ppa
  let intenseInd :=
    (4 : ℚ) < ((ba.intensity_distribution.map (·.max_intensity)).getD 0)
  let score : ℚ := (if syncInd then 3 / 10 else 0)
    + (if hashInd then 2 / 10 else 0) + (if authorInd then 3 / 10 else 0)
    + (if intenseInd then 2 / 10 else 0)
  ⟨decide ((1 : ℚ) / 2 < score), min 1 score,
    (if syncInd then ["synchronized_timing"] else [])
      ++ (if hashInd then ["repetitive_hashtags"] else [])
      ++ (if authorInd then ["hyperactive_authors"] else [])
      ++ (if intenseInd then ["extreme_burst_intensity"] else [])⟩

structure BurstResult where
  total_posts : ℕ
  time_span_hours : ℕ
  kleinberg_bursts : List BurstEvent
  zscore_anomalies : List ZAnomaly
  peak_bursts : List PeakBurst
  burst_analysis : Option BurstAnalysis
  coordination_indicators : CoordinationIndicators
  time_series : List (ℚ × ℕ)

/-- `BurstDetector._empty_burst_result`. -/
def emptyBurstResult : BurstResult :=
  ⟨0, 0, [], [], [], none, ⟨false, 0, []⟩, []⟩

/-- `BurstDetector.detect_bursts` (default `time_window_hours = 24`; the
window parameter is echoed in the result but does not affect the series).
The wall-clock argument mirrors the ambient runtime environment; the burst
module never reads the clock. -/
noncomputable def detectBursts (_now : ℚ) (posts : List Post)
    (window : ℕ := 24) : BurstResult :=
  if posts.isEmpty then emptyBurstResult
  else
    let series := prepareTimeSeries posts
    if series.length < 3 then emptyBurstResult
    else
      let kb := kleinbergBurstDetection series
      let za := zscoreAnomalies series
      let pb := peakDetection series
      let ba := analyzeBurstCharacteristics posts kb za pb
      ⟨posts.length, window, kb, za, pb, some ba,
        detectCoordinationPatterns posts ba, series⟩

end Cyber.Burst

namespace Cyber.Campaign

/-- The six component scores of `CampaignScorer._calculate_component_scores`. -/
structure ComponentScores where
  toxicity : ℝ
  stance : ℝ
  coordination : ℝ
  bot_network : ℝ
  burst_activity : ℝ
  narrative_threat : ℝ

/-- The zero component-score record used by `_empty_campaign_score`. -/
noncomputable def zeroComponents : ComponentScores := ⟨0, 0, 0, 0, 0, 0⟩

/-- Component weights of `CampaignScorer.__init__`. -/
noncomputable def weightedTotal (c : ComponentScores) : ℝ :=
  c.toxicity * (20 / 100) + c.stance * (25 / 100) + c.coordination * (25 / 100)
    + c.bot_network * (15 / 100) + c.burst_activity * (10 / 100)
    + c.narrative_threat * (5 / 100)

/-- `CampaignScorer._calculate_final_score`: weighted sum capped at `100`. -/
noncomputable def calculateFinalScore (c : ComponentScores) : ℝ :=
  min 100 (weightedTotal c)

/-- The ordered severity bands of `CampaignScorer.__init__`
(`self.severity_thresholds`, iterated in insertion order). -/
def severityThresholds : List (String × ℚ × ℚ) :=
  [("low", 0, 30), ("medium", 30, 60), ("high", 60, 85), ("critical", 85, 100)]

/-- `CampaignScorer._determine_severity`: first band with
`min_score <= score < max_score`, falling back to `'critical'`. -/
noncomputable def determineSeverity (score : ℝ) : String :=
  (severityThresholds.find? fun b =>
    decide ((b.2.1 : ℝ) ≤ score) && decide (score < (b.2.2 : ℝ))).elim
    "critical" Prod.fst

open Cyber Cyber.Coordination Cyber.Bot Cyber.Burst

/-- Per-post toxicity collaborator result (`toxicity_score` with the `[0,1]`
contract of §6; remaining echo fields are irrelevant to the scorer). -/
structure ToxicityResult where
  toxicity_score : ℚ
  deriving Repr, DecidableEq

/-- Per-post stance collaborator result (`stance_scores.get('anti_india', 0)`
is the only value the scorer reads). -/
structure StanceResult where
  anti_india : ℚ
  deriving Repr, DecidableEq

structure ClusterStats where
  avg_toxicity : ℚ
  avg_stance : ℚ
  deriving Repr, DecidableEq

structure NarrativeResult where
  clusters : List ClusterStats
  deriving Repr, DecidableEq

/-- The external NLP collaborators injected into `CampaignScorer.__init__`;
each call can raise (modelled by `Except`). -/
structure Collaborators where
  classify_toxicity : String → String → Except Unit ToxicityResult
  detect_stance : String → String → Except Unit StanceResult
  cluster_narratives : List Post → Except Unit NarrativeResult

/-- The `results` dict built by `_run_analysis_pipeline`; keys missing when
an exception interrupted the single surrounding `try` block are `none`. -/
structure PipelineResults where
  toxicity : Option (List ToxicityResult)
  stance : Option (List StanceResult)
  coordination : Option CoordinationResult
  bot_detection : Option (List BotResult)
  bot_network : Option NetworkResult
  burst_detection : Option BurstResult
  narrative_clustering : Option NarrativeResult

/-- `CampaignScorer._run_analysis_pipeline`: one `try` block around all seven
sub-analyses run in sequence; the first raise aborts the remainder, keeping
only the keys already assigned (each per-post loop assigns its key only
after the whole loop finishes). -/
noncomputable def runAnalysisPipeline (c : Collaborators) (now : ℚ)
    (posts : List Post) (authors : List Author) : PipelineResults :=
  match posts.mapM fun p => c.classify_toxicity p.text_content p.language with
  | .error _ => ⟨none, none, none, none, none, none, none⟩
  | .ok tox =>
    match posts.mapM fun p => c.detect_stance p.text_content p.language with
    | .error _ => ⟨some tox, none, none, none, none, none, none⟩
    | .ok st =>
      let coord := detectCoordination now posts (some authors)
      let bots := authors.map fun a =>
        calculateBotLikelihood now a (posts.filter fun p =>
          p.author.platform_user_id == a.platform_user_id)
      let network := analyzeBotNetwork now authors posts
      let burst := detectBursts now posts
      match c.cluster_narratives posts with
      | .error _ =>
        ⟨some tox, some st, some coord, some bots, some network, some burst,
          none⟩
      | .ok narr =>
        ⟨some tox, some st, some coord, some bots, some network, some burst,
          some narr⟩

/-- `CampaignScorer._calculate_component_scores` (missing keys default to
empty/zero exactly as the `.get` fallbacks do). -/
noncomputable def calculateComponentScores (r : PipelineResults) :
    ComponentScores :=
  let tox := r.toxicity.getD []
  let st := r.stance.getD []
  let br := r.bot_detection.getD []
  let cl := (r.narrative_clustering.map (·.clusters)).getD []
  { toxicity :=
      if tox.isEmpty then 0
      else min 100 ((qmean (tox.map (·.toxicity_score)) : ℝ) * 60
        + (((tox.filter fun t => 7 / 10 < t.toxicity_score).length : ℚ)
            / (tox.length : ℚ) : ℚ) * 40)
    stance :=
      if st.isEmpty then 0
      else min 100 ((qmean (st.map (·.anti_india)) : ℝ) * 70
        + (((st.filter fun t => 6 / 10 < t.anti_india).length : ℚ)
            / (st.length : ℚ) : ℚ) * 30)
    coordination := (r.coordination.elim 0 (·.coordination_score)) * 100
    bot_network :=
      if br.isEmpty then 0
      else min 100 (((r.bot_network.elim 0 (·.network_score) : ℚ) : ℝ) * 60
        + (((br.filter fun b => 7 / 10 < b.bot_likelihood_score).length : ℚ)
            / (br.length : ℚ) : ℚ) * 40)
    burst_activity :=
      min 100 (((r.burst_detection.elim 0
          (·.coordination_indicators.coordination_score) : ℚ) : ℝ) * 70
        + min 30 (((r.burst_detection.elim 0 (·.kleinberg_bursts.length)) : ℝ)
            * 10))
    narrative_threat :=
      if cl.isEmpty then 0
      else (((cl.filter fun s =>
          (6 / 10 : ℚ) < s.avg_toxicity ∨ s.avg_stance < -(6 / 10 : ℚ)).length : ℚ)
        / (cl.length : ℚ) : ℚ) * 100 }

structure Alert where
  type : String
  severity : String
  message : String
  evidence : String
  deriving Repr, DecidableEq

/-- `CampaignScorer._generate_alerts` (the interpolated scores inside the
message texts are omitted; the `severity` argument is unused, as in the
source). -/
noncomputable def generateAlerts (cs : ComponentScores) (_r : PipelineResults)
    (_severity : String) : List Alert :=
  (if (70 : ℝ) < cs.toxicity then
    [⟨"high_toxicity", "high", "High toxicity detected",
      "Multiple posts contain toxic content above threshold"⟩] else [])
  ++ (if (60 : ℝ) < cs.stance then
    [⟨"anti_india_narrative", "high", "Anti-India narrative detected",
      "Coordinated negative stance towards India detected"⟩] else [])
  ++ (if (60 : ℝ) < cs.coordination then
    [⟨"coordinated_behavior", "critical",
      "Coordinated inauthentic behavior detected", "Coordination score"⟩]
    else [])
  ++ (if (50 : ℝ) < cs.bot_network then
    [⟨"bot_network", "high", "Bot network detected", "Network score"⟩] else [])
  ++ (if (50 : ℝ) < cs.burst_activity then
    [⟨"burst_activity", "medium", "Suspicious burst activity detected",
      "Burst score"⟩] else [])

/-- `CampaignScorer._generate_recommendations` (tiered by the recomputed
final score, then component-specific actions). -/
noncomputable def generateRecommendations (cs : ComponentScores)
    (_r : PipelineResults) : List String :=
  let final := calculateFinalScore cs
  (if (85 : ℝ) < final then
    ["CRITICAL: Immediate human expert review required",
      "Consider escalating to security team", "Monitor for continued activity"]
  else if (60 : ℝ) < final then
    ["HIGH: Schedule expert review within 24 hours",
      "Increase monitoring frequency"]
  else if (30 : ℝ) < final then
    ["MEDIUM: Review during next analysis cycle",
      "Continue automated monitoring"]
  else [])
  ++ (if (70 : ℝ) < cs.coordination then
    ["Investigate coordination patterns for legal violations",
      "Cross-reference with known influence operations"] else [])
  ++ (if (60 : ℝ) < cs.bot_network then
    ["Report bot network to platform administrators",
      "Analyze bot creation patterns"] else [])
  ++ (if (60 : ℝ) < cs.toxicity then
    ["Flag toxic content for content moderation",
      "Analyze toxicity trends over time"] else [])

structure CampaignScoreResult where
  campaign_score : ℝ
  severity : String
  component_scores : ComponentScores
  analysis_results : Option PipelineResults
  alerts : List Alert
  recommendations : List String
  human_review_required : Bool
  timestamp : ℚ

/-- `CampaignScorer._empty_campaign_score` (stamped with the wall clock). -/
noncomputable def emptyCampaignScore (now : ℚ) : CampaignScoreResult :=
  ⟨0, "low", zeroComponents, none, [], ["No data to analyze"], false, now⟩

/-- `CampaignScorer.score_campaign`.  `now` is the ambient wall clock, read
by `datetime.now()` for the result timestamp and by the account-age
computations inside the detectors.  The `_extract_authors` helper is
line-for-line the extractor of `CoordinationDetector`, so the embedding
shares one definition. -/
noncomputable def scoreCampaign (c : Collaborators) (now : ℚ)
    (posts : List Post) (authors : Option (List Author) := none) :
    CampaignScoreResult :=
  if posts.isEmpty then emptyCampaignScore now
  else
    let auths := authors.getD (Coordination.extractAuthors posts)
    let results := runAnalysisPipeline c now posts auths
    let cs := calculateComponentScores results
    let final := calculateFinalScore cs
    let sev := determineSeverity final
    ⟨final, sev, cs, some results, generateAlerts cs results sev,
      generateRecommendations cs results,
      decide ((70 : ℝ) < final) || decide (sev = "high")
        || decide (sev = "critical"), now⟩

/-- The documented `[0,1]` contract of the collaborator classifiers (§6):
every successfully returned toxicity and stance score lies in `[0,1]`. -/
def collabInRange (c : Collaborators) : Prop :=
  (∀ s l t, c.classify_toxicity s l = Except.ok t →
    0 ≤ t.toxicity_score ∧ t.toxicity_score ≤ 1) ∧
  (∀ s l t, c.detect_stance s l = Except.ok t →
    0 ≤ t.anti_india ∧ t.anti_india ≤ 1)

/-- All six component scores lie in `[0,100]`. -/
def componentsInRange (cs : ComponentScores) : Prop :=
  (0 ≤ cs.toxicity ∧ cs.toxicity ≤ 100) ∧
  (0 ≤ cs.stance ∧ cs.stance ≤ 100) ∧
  (0 ≤ cs.coordination ∧ cs.coordination ≤ 100) ∧
  (0 ≤ cs.bot_network ∧ cs.bot_network ≤ 100) ∧
  (0 ≤ cs.burst_activity ∧ cs.burst_activity ≤ 100) ∧
  (0 ≤ cs.narrative_threat ∧ cs.narrative_threat ≤ 100)

end Cyber.Campaign

namespace Cyber.Examples

open Cyber Cyber.Coordination Cyber.Bot Cyber.Burst Cyber.Campaign

/-- A minimal author with a platform id and username. -/
def mkAuthor (uid uname : String) : Author :=
  ⟨some uid, some uname, 10, 10, 0, false, "", "", "", "", none⟩

def alice : Author := mkAuthor "u1" "alice"

def bob : Author := mkAuthor "u2" "bob"

/-- A post at minute `t` by `a` with text `txt` and post id `pid`. -/
def mkPost (pid : String) (txt : String) (t : ℚ) (a : Author) : Post :=
  ⟨some pid, txt, some t, a, [], [], [], 0, 0, 0, "twitter", "en"⟩

/-- Five copy-paste posts from two distinct accounts within 20 minutes:
three by `alice`, two by `bob` (C3/C4 failing input). -/
def copyPastePosts : List Post :=
  [mkPost "p1" "economy failing" 0 alice,
   mkPost "p2" "economy failing" 5 alice,
   mkPost "p3" "economy failing" 10 alice,
   mkPost "p4" "economy failing" 15 bob,
   mkPost "p5" "economy failing" 20 bob]

/-- Three posts by a single author inside the 30-minute gap threshold
(C7 counterexample). -/
def singleAuthorRun : List Post :=
  [mkPost "p1" "one" 0 alice, mkPost "p2" "two" 10 alice,
   mkPost "p3" "three" 20 alice]

/-- Two timestamped posts five hours apart: only 2 valid timestamps, but a
6-bucket hourly series (C6 counterexample). -/
def twoFarPosts : List Post :=
  [mkPost "p1" "hello there" 0 alice, mkPost "p2" "general greeting" 300 bob]

def meta0 (pid : String) : PostMeta := ⟨0, some pid, "x", none⟩

/-- Above-threshold similarity pairs `(a,b), (c,d), (b,c)`: the third pair
bridges the first two groups (C8 counterexample). -/
noncomputable def bridgePairs : List SimilarPair :=
  [⟨meta0 "a", meta0 "b", 9 / 10⟩, ⟨meta0 "c", meta0 "d", 9 / 10⟩,
   ⟨meta0 "b", meta0 "c", 9 / 10⟩]

/-- Neutral, never-failing collaborators. -/
def trivialCollab : Collaborators :=
  ⟨fun _ _ => .ok ⟨0⟩, fun _ _ => .ok ⟨0⟩, fun _ => .ok ⟨[]⟩⟩

/-- Collaborators whose stance classifier raises on every call (C3 failing
input). -/
def stanceFailCollab : Collaborators :=
  ⟨fun _ _ => .ok ⟨0⟩, fun _ _ => .error (), fun _ => .ok ⟨[]⟩⟩

/-- Hourly post volume of the C5 synthetic series: 2 posts/hour baseline,
15 posts/hour during hours 12–15, over 48 hours. -/
def synthCount (h : ℕ) : ℕ := if 12 ≤ h ∧ h < 16 then 15 else 2

/-- The synthetic 48-hour burst-recall series as posts (one post per minute
slot from the start of each hour). -/
def synthPosts : List Post :=
  (List.range 48).flatMap fun h =>
    (List.range (synthCount h)).map fun j =>
      mkPost "s" "burst sample" ((60 * h + j : ℕ) : ℚ) alice

/-- The hourly counts of the synthetic series. -/
def synthCounts : List ℕ := (List.range 48).map synthCount

/-- The hourly series the synthetic posts bucket into. -/
def synthSeries : List (ℚ × ℕ) :=
  (List.range 48).map fun h => (((60 * h : ℕ) : ℚ), synthCount h)

/-- A three-state DP cost column with explicit offsets above the state-0
cost. -/
noncomputable def tbl (x d1 d2 : ℝ) : Fin 3 → ℝ := ![x, x + d1, x + d2]

/-- The base rate of the synthetic series (`148 posts / 48 hours`). -/
def synthBase : ℚ := 37 / 12

/-- The five identical texts of `copyPastePosts`. -/
def copyTexts : List String :=
  ["economy failing", "economy failing", "economy failing", "economy failing",
   "economy failing"]

/-- The behavioral feature values shared by `alice` and `bob` on the
copy-paste input (they differ only in `posts_in_dataset`: 3 vs 2). -/
def copyFeats : Coordination.BehavioralFeatures :=
  ⟨10, 10, 0, false, 0, 3, 15, 0, 0, 0, 0, 0, 0⟩

/-- The timestamped copy-paste posts. -/
def copyTimed : List Coordination.TimedPost :=
  [⟨0, some "p1", "alice", "twitter"⟩, ⟨5, some "p2", "alice", "twitter"⟩,
   ⟨10, some "p3", "alice", "twitter"⟩, ⟨15, some "p4", "bob", "twitter"⟩,
   ⟨20, some "p5", "bob", "twitter"⟩]

/-- The timestamped posts of `singleAuthorRun`. -/
def runTimed : List Coordination.TimedPost :=
  [⟨0, some "p1", "alice", "twitter"⟩, ⟨10, some "p2", "alice", "twitter"⟩,
   ⟨20, some "p3", "alice", "twitter"⟩]

/-- The one timing cluster the single-author run produces: three posts, one
distinct author. -/
def runCluster : Coordination.TimingCluster := ⟨runTimed, 0, 20, 20, 3, 1⟩

end Cyber.Examples

namespace Cyber.Facts

open Cyber Cyber.Coordination Cyber.Bot Cyber.Burst Cyber.Campaign
open Cyber.Examples

/-- Every cluster emitted by the greedy timing loop contains at least three
posts, and its `size` is its post count. -/
theorem clusterStep_sizes :
    ∀ (rest cur : List TimedPost) (cl : TimingCluster),
      cl ∈ clusterStep rest cur → 3 ≤ cl.size ∧ cl.size = cl.posts.length := by
  intro rest
  induction rest with
  | nil =>
    intro cur cl hcl
    simp only [clusterStep] at hcl
    split at hcl
    case isTrue h =>
      rcases List.mem_singleton.mp hcl with rfl
      exact ⟨by simpa [mkCluster] using h, by simp [mkCluster]⟩
    case isFalse h => simp at hcl
  | cons p rest ih =>
    intro cur cl hcl
    simp only [clusterStep] at hcl
    split at hcl
    · exact ih _ _ hcl
    · rcases List.mem_append.mp hcl with h | h
      · split at h
        case isTrue h3 =>
          rcases List.mem_singleton.mp h with rfl
          exact ⟨by simpa [mkCluster] using h3, by simp [mkCluster]⟩
        case isFalse h3 => simp at h
      · exact ih _ _ h

/-- Evaluation of timing coordination on the three-post single-author run:
one cluster, three posts, one distinct author. -/
theorem singleAuthorRun_clusters :
    (detectTimingCoordination singleAuthorRun).timing_clusters = [runCluster] := by
  have htp : timedPosts singleAuthorRun = runTimed := by
    simp [timedPosts, singleAuthorRun, mkPost, alice, mkAuthor, runTimed]
  have hsort : sortByTime runTimed = runTimed := by
    apply List.mergeSort_of_sorted
    decide
  have hlen : ¬ (singleAuthorRun.length < 2) := by decide
  simp only [detectTimingCoordination, htp, hsort, hlen, if_false]
  norm_num [timingClustersOf, clusterStep, mkCluster, runTimed, runCluster]

/-- Sorting a two-element list that is already in order is the identity. -/
theorem mergeSort_pair {α : Type} (le : α → α → Bool) (a b : α)
    (h : le a b = true) : [a, b].mergeSort le = [a, b] :=
  List.mergeSort_of_sorted (List.pairwise_cons.mpr
    ⟨fun c hc => by rcases List.mem_singleton.mp hc with rfl; exact h,
     List.pairwise_singleton _ _⟩)

/-- `updateGroup` only appends posts: every id present stays present. -/
theorem updateGroup_ids_mono (all : List SimilarPair) (g : ContentGroup)
    (q : SimilarPair) (id : Option String) (h : id ∈ groupIds g) :
    id ∈ groupIds (updateGroup all g q) := by
  simp only [updateGroup, groupIds] at *
  split <;> split <;> simp_all [List.mem_append]

/-- `updateGroup` makes both of the pair's ids members. -/
theorem updateGroup_covers (all : List SimilarPair) (g : ContentGroup)
    (q : SimilarPair) :
    q.post1.post_id ∈ groupIds (updateGroup all g q) ∧
      q.post2.post_id ∈ groupIds (updateGroup all g q) := by
  simp only [updateGroup, groupIds]
  constructor
  · split
    case isTrue h1 =>
      split <;> simp_all [groupIds, List.mem_append]
    case isFalse h1 =>
      split
      case isTrue h2 => simp_all [groupIds, List.mem_append]
      case isFalse h2 => simp [List.mem_append]
  · split <;>
    · split
      case isTrue h2 => simp_all [groupIds]
      case isFalse h2 => simp [List.mem_append]

/-- Every group in the accumulator survives `insertPair` with its ids. -/
theorem insertPair_mono (all : List SimilarPair) :
    ∀ (gs : List ContentGroup) (q : SimilarPair) (g : ContentGroup),
      g ∈ gs → ∃ g' ∈ insertPair all gs q,
        ∀ id, id ∈ groupIds g → id ∈ groupIds g' := by
  intro gs
  induction gs with
  | nil => intro q g hg; simp at hg
  | cons g0 rest ih =>
    intro q g hg
    simp only [insertPair]
    split
    case isTrue h =>
      rcases List.mem_cons.mp hg with rfl | hmem
      · exact ⟨updateGroup all g q, List.mem_cons_self _ _,
          fun id hid => updateGroup_ids_mono all g q id hid⟩
      · exact ⟨g, List.mem_cons_of_mem _ hmem, fun _ h => h⟩
    case isFalse h =>
      rcases List.mem_cons.mp hg with rfl | hmem
      · exact ⟨g, List.mem_cons_self _ _, fun _ h => h⟩
      · rcases ih q g hmem with ⟨g', hg', hsub⟩
        exact ⟨g', List.mem_cons_of_mem _ hg', hsub⟩

/-- After `insertPair`, some group contains both of the pair's post ids. -/
theorem insertPair_covers (all : List SimilarPair) :
    ∀ (gs : List ContentGroup) (q : SimilarPair),
      ∃ g ∈ insertPair all gs q,
        q.post1.post_id ∈ groupIds g ∧ q.post2.post_id ∈ groupIds g := by
  intro gs
  induction gs with
  | nil =>
    intro q
    refine ⟨⟨[q.post1, q.post2], q.similarity, 2⟩, List.mem_singleton.mpr rfl, ?_⟩
    simp [groupIds]
  | cons g0 rest ih =>
    intro q
    simp only [insertPair]
    split
    case isTrue h =>
      exact ⟨updateGroup all g0 q, List.mem_cons_self _ _,
        updateGroup_covers all g0 q⟩
    case isFalse h =>
      rcases ih q with ⟨g, hg, hc⟩
      exact ⟨g, List.mem_cons_of_mem _ hg, hc⟩

/-- Ids present in some accumulator group survive the whole fold. -/
theorem foldl_mono (all : List SimilarPair) :
    ∀ (todo : List SimilarPair) (acc : List ContentGroup) (g : ContentGroup),
      g ∈ acc → ∃ g' ∈ todo.foldl (insertPair all) acc,
        ∀ id, id ∈ groupIds g → id ∈ groupIds g' := by
  intro todo
  induction todo with
  | nil => intro acc g hg; exact ⟨g, hg, fun _ h => h⟩
  | cons q rest ih =>
    intro acc g hg
    rcases insertPair_mono all acc q g hg with ⟨g', hg', hsub⟩
    rcases ih (insertPair all acc q) g' hg' with ⟨g'', hg'', hsub'⟩
    exact ⟨g'', hg'', fun id h => hsub' id (hsub id h)⟩

/-- Every processed pair ends with both of its ids inside one common group. -/
theorem foldl_covers (all : List SimilarPair) :
    ∀ (todo : List SimilarPair) (acc : List ContentGroup) (q : SimilarPair),
      q ∈ todo → ∃ g ∈ todo.foldl (insertPair all) acc,
        q.post1.post_id ∈ groupIds g ∧ q.post2.post_id ∈ groupIds g := by
  intro todo
  induction todo with
  | nil => intro acc q hq; simp at hq
  | cons q0 rest ih =>
    intro acc q hq
    rcases List.mem_cons.mp hq with rfl | hmem
    · rcases insertPair_covers all acc q with ⟨g, hg, h1, h2⟩
      rcases foldl_mono all rest (insertPair all acc q) g hg with ⟨g', hg', hsub⟩
      exact ⟨g', hg', hsub _ h1, hsub _ h2⟩
    · exact ih (insertPair all acc q0) q hmem

/-- The hourly series of `twoFarPosts`: two valid timestamps, six buckets. -/
theorem twoFar_series : prepareTimeSeries twoFarPosts =
    [(0, 1), (60, 0), (120, 0), (180, 0), (240, 0), (300, 1)] := by
  have hts : twoFarPosts.filterMap (fun p => p.posted_at) = [0, 300] := by
    simp [twoFarPosts, mkPost]
  simp only [prepareTimeSeries, hts]
  norm_num [hourOf, List.min?, List.max?, List.range_succ]
  norm_num [show Int.toNat 6 = 6 from rfl, List.range_succ, List.flatMap]

end Cyber.Facts

namespace Cyber.Claims

namespace Cyber.Claims

open Cyber Cyber.Coordination Cyber.Bot Cyber.Burst Cyber.Campaign

/-- **C2.** Empty-input law: for the empty post list, `score_campaign`
returns exactly campaign score `0.0`, severity `'low'`, no alerts, the
single recommendation `"No data to analyze"`, and
`human_review_required = False`, through the `_empty_campaign_score` early
return (no exception is possible: the embedding is total on this branch). -/
theorem C2_empty_input_law (c : Collaborators) (now : ℚ)
    (authors : Option (List Author)) :
    (scoreCampaign c now [] authors).campaign_score = 0 ∧
    (scoreCampaign c now [] authors).severity = "low" ∧
    (scoreCampaign c now [] authors).alerts = [] ∧
    (scoreCampaign c now [] authors).recommendations = ["No data to analyze"] ∧
    (scoreCampaign c now [] authors).human_review_required = false := by
  simp [scoreCampaign, emptyCampaignScore]

/-- **C9.** Severity banding: `_determine_severity` maps `[0,30)` to `low`,
`[30,60)` to `medium`, `[60,85)` to `high` and `[85,100]` to `critical`
(lower edges inclusive; `100` falls through every band into the `critical`
fallback), and in particular `29.9 ↦ low`, `30 ↦ medium`, `59.9 ↦ medium`,
`85 ↦ critical`, `100 ↦ critical`. -/
theorem C9_severity_banding (s : ℝ) :
    (0 ≤ s ∧ s < 30 → determineSeverity s = "low") ∧
    (30 ≤ s ∧ s < 60 → determineSeverity s = "medium") ∧
    (60 ≤ s ∧ s < 85 → determineSeverity s = "high") ∧
    (85 ≤ s ∧ s ≤ 100 → determineSeverity s = "critical") ∧
    determineSeverity (299 / 10) = "low" ∧
    determineSeverity 30 = "medium" ∧
    determineSeverity (599 / 10) = "medium" ∧
    determineSeverity 85 = "critical" ∧
    determineSeverity 100 = "critical" := by
  have bands : ∀ t : ℝ,
      (0 ≤ t ∧ t < 30 → determineSeverity t = "low") ∧
      (30 ≤ t ∧ t < 60 → determineSeverity t = "medium") ∧
      (60 ≤ t ∧ t < 85 → determineSeverity t = "high") ∧
      (85 ≤ t ∧ t ≤ 100 → determineSeverity t = "critical") := by
    intro t
    refine ⟨fun ⟨h1, h2⟩ => ?_, fun ⟨h1, h2⟩ => ?_, fun ⟨h1, h2⟩ => ?_,
      fun ⟨h1, h2⟩ => ?_⟩
    · simp only [determineSeverity, severityThresholds, List.find?]
      norm_num [h1, h2]
    · have n30 : ¬ t < 30 := by linarith
      simp only [determineSeverity, severityThresholds, List.find?]
      norm_num [h1, h2, n30]
    · have n30 : ¬ t < 30 := by linarith
      have n60 : ¬ t < 60 := by linarith
      simp only [determineSeverity, severityThresholds, List.find?]
      norm_num [h1, h2, n30, n60]
    · have n30 : ¬ t < 30 := by linarith
      have n60 : ¬ t < 60 := by linarith
      have n85 : ¬ t < 85 := by linarith
      simp only [determineSeverity, severityThresholds, List.find?]
      norm_num [n30, n60, n85]
      cases hb : (decide (85 ≤ t) && decide (t < 100)) <;> simp [hb]
  refine ⟨(bands s).1, (bands s).2.1, (bands s).2.2.1, (bands s).2.2.2,
    (bands _).1 ⟨by norm_num, by norm_num⟩,
    (bands _).2.1 ⟨by norm_num, by norm_num⟩,
    (bands _).2.1 ⟨by norm_num, by norm_num⟩,
    (bands _).2.2.2 ⟨by norm_num, by norm_num⟩,
    (bands _).2.2.2 ⟨by norm_num, by norm_num⟩⟩

/-- Witness for C9 at the concrete score `29.9`. -/
theorem C9_witness :
    ((0 : ℝ) ≤ 299 / 10 ∧ (299 / 10 : ℝ) < 30) ∧
      determineSeverity ((299 : ℝ) / 10) = "low" :=
  ⟨by norm_num, (C9_severity_banding (299 / 10)).1 (by norm_num)⟩

/-- **C7 (amended).** Timing clusters are kept by *post count*, not by
distinct-author count: after sorting by timestamp and greedily clustering
runs with consecutive gaps within the 30-minute threshold, every cluster
recorded in `timing_clusters` contains at least 3 posts (its `size` is its
post count); the distinct-author count is recorded in `unique_authors` but
never enforced. -/
theorem C7_clusters_kept_by_post_count (posts : List Post) :
    ∀ cl ∈ (Coordination.detectTimingCoordination posts).timing_clusters,
      3 ≤ cl.size ∧ cl.size = cl.posts.length := by
  intro cl hcl
  simp only [Coordination.detectTimingCoordination] at hcl
  split at hcl
  · simp at hcl
  · split at hcl
    · simp at hcl
    · simp only [Coordination.timingClustersOf] at hcl
      split at hcl
      · simp at hcl
      · exact Facts.clusterStep_sizes _ _ _ hcl

/-- **C7 (counterexample).** A run of three posts all by the same author
*is* kept: on `singleAuthorRun` the recorded cluster has 3 posts but only 1
distinct author, contradicting the claim that every kept cluster has at
least 3 distinct authors. -/
theorem C7_counterexample :
    ((Coordination.detectTimingCoordination
        Examples.singleAuthorRun).timing_clusters.map
      fun c => (c.size, c.unique_authors)) = [(3, 1)] := by
  rw [Facts.singleAuthorRun_clusters]; rfl

/-- Witness for the amended C7 at the single-author run's cluster. -/
theorem C7_witness :
    Examples.runCluster ∈ (Coordination.detectTimingCoordination
        Examples.singleAuthorRun).timing_clusters ∧
      3 ≤ Examples.runCluster.size ∧
        Examples.runCluster.size = Examples.runCluster.posts.length := by
  have hm : Examples.runCluster ∈ (Coordination.detectTimingCoordination
      Examples.singleAuthorRun).timing_clusters := by
    rw [Facts.singleAuthorRun_clusters]; exact List.mem_singleton.mpr rfl
  exact ⟨hm, C7_clusters_kept_by_post_count Examples.singleAuthorRun _ hm⟩

/-- **C6 (amended).** The small-input guard of `detect_bursts` is on the
*hourly bucket count*, not on the number of valid timestamps: the explicit
empty burst result is returned exactly when the post list is empty or the
zero-filled hourly series spanning the valid timestamps has fewer than 3
buckets.  (In particular, a collection with no valid timestamps yields the
empty result, but two valid timestamps several hours apart do not.) -/
theorem C6_bucket_guard (now : ℚ) (posts : List Post) :
    Burst.detectBursts now posts = Burst.emptyBurstResult ↔
      posts = [] ∨ (Burst.prepareTimeSeries posts).length < 3 := by
  simp only [Burst.detectBursts]
  split
  case isTrue h => simp [List.isEmpty_iff.mp h]
  case isFalse h =>
    have hne : posts ≠ [] := fun hh => h (by simp [hh])
    split
    case isTrue h2 => simp [h2, hne]
    case isFalse h2 =>
      constructor
      · intro he
        exact absurd (congrArg Burst.BurstResult.total_posts he)
          (by simpa [Burst.emptyBurstResult] using
            (List.length_pos.mpr hne).ne')
      · rintro (rfl | hh)
        · exact absurd rfl hne
        · exact absurd hh h2

/-- **C6 (counterexample).** Two posts with valid timestamps five hours
apart — fewer than 3 valid timestamps — do *not* produce the empty result:
the series spans 6 hourly buckets, so burst analysis proceeds and the
result reports the 2 analysed posts. -/
theorem C6_counterexample :
    (Examples.twoFarPosts.filterMap (fun p => p.posted_at)).length = 2 ∧
    (Burst.detectBursts 0 Examples.twoFarPosts).total_posts = 2 ∧
    (Burst.detectBursts 0 Examples.twoFarPosts).time_series.length = 6 ∧
    Burst.detectBursts 0 Examples.twoFarPosts ≠ Burst.emptyBurstResult := by
  have hts : Examples.twoFarPosts.filterMap (fun p => p.posted_at) = [0, 300] := by
    simp [Examples.twoFarPosts, Examples.mkPost]
  have hlen : ¬ ((Burst.prepareTimeSeries Examples.twoFarPosts).length < 3) := by
    rw [Facts.twoFar_series]; norm_num
  have hne : ¬ (Examples.twoFarPosts.isEmpty = true) := by
    simp [Examples.twoFarPosts]
  refine ⟨by rw [hts]; rfl, ?_, ?_, ?_⟩
  · simp only [Burst.detectBursts]
    rw [if_neg hne, if_neg hlen]
    simp [Examples.twoFarPosts]
  · simp only [Burst.detectBursts]
    rw [if_neg hne, if_neg hlen]
    show (Burst.prepareTimeSeries Examples.twoFarPosts).length = 6
    rw [Facts.twoFar_series]; rfl
  · intro he
    exact absurd (congrArg Burst.BurstResult.total_posts he)
      (by simp only [Burst.detectBursts]
          rw [if_neg hne, if_neg hlen]
          simp [Burst.emptyBurstResult, Examples.twoFarPosts])

/-- Witness for the amended C6 at the empty post list. -/
theorem C6_witness :
    (([] : List Post) = [] ∨ (Burst.prepareTimeSeries ([] : List Post)).length < 3) ∧
      Burst.detectBursts 0 [] = Burst.emptyBurstResult :=
  ⟨Or.inl rfl, (C6_bucket_guard 0 []).mpr (Or.inl rfl)⟩

/-- **C8 (amended).** The similar-content grouping is a single greedy pass,
not a connected-components computation: each above-threshold pair is merged
into the *first* existing group sharing one of its post ids (adding its
missing posts), otherwise it starts a new group.  Consequently every pair
ends with both of its posts inside one common group, but groups are never
merged with each other, so a later bridging pair can leave a post in two
distinct groups. -/
theorem C8_groups_cover_pairs (pairs : List Coordination.SimilarPair) :
    ∀ p ∈ pairs, ∃ g ∈ Coordination.groupSimilarContent pairs,
      p.post1.post_id ∈ g.posts.map (·.post_id) ∧
        p.post2.post_id ∈ g.posts.map (·.post_id) := by
  intro p hp
  rcases Facts.foldl_covers pairs pairs [] p hp with ⟨g, hg, h1, h2⟩
  refine ⟨{ g with size := g.posts.length }, ?_, h1, h2⟩
  simp only [Coordination.groupSimilarContent, List.mem_mergeSort]
  exact List.mem_map.mpr ⟨g, hg, rfl⟩

/-- **C8 (counterexample).** For the above-threshold pairs
`(a,b), (c,d), (b,c)` the bridging pair `(b,c)` is attached to the first
group only: the result is the two groups `[a,b,c]` and `[c,d]`, so post `c`
appears in two distinct groups and the groups are not the connected
components `{a,b,c,d}` of the pair graph. -/
theorem C8_counterexample :
    ((Coordination.groupSimilarContent Examples.bridgePairs).map
      fun g => g.posts.map (·.post_id)) =
      [[some "a", some "b", some "c"], [some "c", some "d"]] := by
  simp only [Coordination.groupSimilarContent, Examples.bridgePairs, List.foldl]
  simp only [Coordination.insertPair, Coordination.updateGroup,
    Coordination.groupIds, Examples.meta0]
  simp +decide
  rw [Facts.mergeSort_pair]
  · rfl
  · rfl

/-- Witness for the amended C8 at the first bridge pair. -/
theorem C8_witness :
    (⟨Examples.meta0 "a", Examples.meta0 "b", 9 / 10⟩ :
        Coordination.SimilarPair) ∈ Examples.bridgePairs ∧
      ∃ g ∈ Coordination.groupSimilarContent Examples.bridgePairs,
        some "a" ∈ g.posts.map (·.post_id) ∧
          some "b" ∈ g.posts.map (·.post_id) := by
  have hm : (⟨Examples.meta0 "a", Examples.meta0 "b", 9 / 10⟩ :
      Coordination.SimilarPair) ∈ Examples.bridgePairs := by
    simp [Examples.bridgePairs]
  exact ⟨hm, C8_groups_cover_pairs Examples.bridgePairs _ hm⟩

/-- **C10 (amended).** There is no hidden randomness inside the burst
detector: `detect_bursts` is a pure function of the posts alone and is
invariant under the ambient wall clock.  `score_campaign` (and, through the
account-age features, `detect_coordination`) is a pure function of its
inputs *and* the wall clock: in particular the result is always stamped
with the call-time `timestamp`, so repeated calls are not identical in
every field.  (The toxicity collaborator additionally draws
`random.uniform(0.1, 0.3)` on texts with matched toxic words, modelled here
by the injected collaborator functions.) -/
theorem C10_determinism_amended :
    (∀ (now1 now2 : ℚ) (posts : List Post) (w : ℕ),
      Burst.detectBursts now1 posts w = Burst.detectBursts now2 posts w) ∧
    (∀ (c : Campaign.Collaborators) (now : ℚ) (posts : List Post)
        (authors : Option (List Author)),
      (Campaign.scoreCampaign c now posts authors).timestamp = now) := by
  constructor
  · intro _ _ _ _; rfl
  · intro c now posts authors
    simp only [Campaign.scoreCampaign]
    split <;> rfl

/-- **C10 (counterexample).** Two calls of `score_campaign` on the same
(empty) immutable input at different wall-clock instants return different
outputs — the `timestamp` field is `datetime.now()` — so the output is not
identical in every field. -/
theorem C10_counterexample :
    Campaign.scoreCampaign Examples.trivialCollab 0 [] none ≠
      Campaign.scoreCampaign Examples.trivialCollab 1 [] none := by
  intro h
  have h2 := congrArg Campaign.CampaignScoreResult.timestamp h
  simp [Campaign.scoreCampaign, Campaign.emptyCampaignScore] at h2

end Cyber.Claims

namespace Cyber.Facts

open Cyber Cyber.Coordination Cyber.Bot Cyber.Burst Cyber.Campaign
open Cyber.Examples

/-- The cosine quotient of a vector with itself is `1` off the zero vector. -/
theorem dot_div_norm_self {m : ℕ} (v : Fin m → ℝ) (h : (∑ i, v i ^ 2) ≠ 0) :
    dotF v v / (normF v * normF v) = 1 := by
  have hS : 0 < ∑ i, v i ^ 2 :=
    (Finset.sum_nonneg fun i _ => sq_nonneg _).lt_of_ne (Ne.symm h)
  have hd : dotF v v = ∑ i, v i ^ 2 := by simp [dotF, sq]
  simp only [normF, hd, Real.mul_self_sqrt hS.le]
  exact div_self h

theorem normF_ne_zero {m : ℕ} (v : Fin m → ℝ) (h : (∑ i, v i ^ 2) ≠ 0) :
    normF v ≠ 0 := by
  have hS : 0 < ∑ i, v i ^ 2 :=
    (Finset.sum_nonneg fun i _ => sq_nonneg _).lt_of_ne (Ne.symm h)
  simp only [normF]
  exact (Real.sqrt_pos.mpr hS).ne'

/-- Authors with identical behavioral vectors (off zero) are fully similar. -/
theorem behavioralSimilarity_one (f1 f2 : BehavioralFeatures)
    (hv : behavioralVector f1 = behavioralVector f2)
    (h : (∑ i, behavioralVector f1 i ^ 2) ≠ 0) :
    behavioralSimilarity f1 f2 = 1 := by
  have hne := normF_ne_zero _ h
  simp only [behavioralSimilarity, ← hv]
  rw [if_neg (not_or.mpr ⟨hne, hne⟩), dot_div_norm_self _ h]
  norm_num

theorem copy_features_alice :
    behavioralFeatures 0 alice copyPastePosts = copyFeats := by
  simp +decide [behavioralFeatures, copyPastePosts, mkPost, alice, bob, mkAuthor,
    authorId, pyOr, strTruthy, qmean, accountAge, copyFeats,
    show ("economy failing".length = 15) from rfl]
  norm_num

theorem copy_features_bob :
    behavioralFeatures 0 bob copyPastePosts = { copyFeats with posts_in_dataset := 2 } := by
  simp +decide [behavioralFeatures, copyPastePosts, mkPost, alice, bob, mkAuthor,
    authorId, pyOr, strTruthy, qmean, accountAge, copyFeats,
    show ("economy failing".length = 15) from rfl]

theorem copy_vec_nonzero :
    (∑ i, behavioralVector copyFeats i ^ 2) ≠ 0 := by
  have h15 : (0:ℝ) < behavioralVector copyFeats 3 ^ 2 := by
    norm_num [behavioralVector, copyFeats]
  have hp : (0:ℝ) < ∑ i, behavioralVector copyFeats i ^ 2 :=
    Finset.sum_pos' (fun i _ => sq_nonneg _) ⟨3, Finset.mem_univ _, h15⟩
  exact hp.ne'

/-- The two copy-paste authors form one above-threshold behavioral pair,
hence behavioral strength `1`. -/
theorem copy_behavioral_strength :
    (detectBehavioralCoordination 0 [alice, bob]
      copyPastePosts).coordination_strength = 1 := by
  have hsim : behavioralSimilarity
      (behavioralFeatures 0 alice copyPastePosts)
      (behavioralFeatures 0 bob copyPastePosts) = 1 := by
    rw [copy_features_alice, copy_features_bob]
    exact behavioralSimilarity_one _ _ rfl copy_vec_nonzero
  have hafl : authorFeatureList 0 copyPastePosts [alice, bob] =
      [("u1", behavioralFeatures 0 alice copyPastePosts),
       ("u2", behavioralFeatures 0 bob copyPastePosts)] := by
    simp +decide [authorFeatureList, dictInsert, authorId, pyOr, strTruthy, alice,
      bob, mkAuthor]
  have hip : indexPairs 2 = [(0, 1)] := by decide
  simp only [detectBehavioralCoordination]
  rw [if_neg (by norm_num)]
  simp only [hafl, behavioralPairs, hip, List.filterMap, List.get?]
  rw [hsim]
  norm_num

theorem copy_idf_economy : idf copyTexts "economy" = 1 := by
  have h1 : copyTexts.length = 5 := by decide
  have h2 : docFreq copyTexts "economy" = 5 := by decide
  simp only [idf, h1, h2]
  norm_num [Real.log_one]

theorem copy_tfidf_nonzero :
    (∑ i, tfidfVector copyTexts "economy failing" i ^ 2) ≠ 0 := by
  have hlen : 0 < (vocab copyTexts).length := by decide
  have hget : (vocab copyTexts).get ⟨0, hlen⟩ = "economy" := by
    have h0 : (vocab copyTexts).get? 0 = some "economy" := by decide
    rw [List.get?_eq_get hlen] at h0
    exact Option.some.inj h0
  have htc : termCount "economy failing" "economy" = 1 := by decide
  have hval : tfidfVector copyTexts "economy failing" ⟨0, hlen⟩ = 1 := by
    simp only [tfidfVector, hget, htc, copy_idf_economy]
    norm_num
  have hpos : (0:ℝ) < ∑ i, tfidfVector copyTexts "economy failing" i ^ 2 := by
    refine Finset.sum_pos' (fun i _ => sq_nonneg _)
      ⟨⟨0, hlen⟩, Finset.mem_univ _, ?_⟩
    rw [hval]; norm_num
  exact hpos.ne'

/-- Identical copy-paste texts have tf-idf cosine similarity exactly `1`. -/
theorem copy_sim :
    tfidfSim copyTexts "economy failing" "economy failing" = 1 := by
  simp only [tfidfSim]
  have hne := normF_ne_zero _ copy_tfidf_nonzero
  simp only [cosineSim]
  rw [if_neg (not_or.mpr ⟨hne, hne⟩)]
  exact dot_div_norm_self _ copy_tfidf_nonzero

theorem copy_sim_lit :
    tfidfSim ["economy failing", "economy failing", "economy failing",
      "economy failing", "economy failing"] "economy failing"
      "economy failing" = 1 := copy_sim

theorem copy_tm : textsAndMeta copyPastePosts =
    [("economy failing", ⟨0, some "p1", "alice", some 0⟩),
     ("economy failing", ⟨1, some "p2", "alice", some 5⟩),
     ("economy failing", ⟨2, some "p3", "alice", some 10⟩),
     ("economy failing", ⟨3, some "p4", "bob", some 15⟩),
     ("economy failing", ⟨4, some "p5", "bob", some 20⟩)] := by decide

/-- All ten text pairs pass the 0.8 threshold, so text strength is `1`. -/
theorem copy_text_strength :
    (detectTextSimilarityCoordination copyPastePosts).coordination_strength = 1 := by
  have hpl : ¬ (copyPastePosts.length < 2) := by decide
  have hip : indexPairs 5 =
    [(0,1),(0,2),(0,3),(0,4),(1,2),(1,3),(1,4),(2,3),(2,4),(3,4)] := by decide
  simp only [detectTextSimilarityCoordination]
  rw [if_neg hpl]
  simp only [copy_tm, similarPairs]
  rw [if_neg (by norm_num)]
  simp only [copy_tm, List.map, List.length_cons, List.length_nil]
  simp only [hip, List.filterMap, List.getD, List.get?, Option.getD_some]
  simp only [copy_sim_lit]
  norm_num

/-- All five copy-paste posts fall into one 30-minute cluster, so timing
strength is `1`. -/
theorem copy_timing_strength :
    (detectTimingCoordination copyPastePosts).coordination_strength = 1 := by
  have htp : timedPosts copyPastePosts = copyTimed := by
    simp [timedPosts, copyPastePosts, mkPost, alice, bob, mkAuthor, copyTimed]
  have hsort : sortByTime copyTimed = copyTimed := by
    apply List.mergeSort_of_sorted
    decide
  have hlen : ¬ (copyPastePosts.length < 2) := by decide
  simp only [detectTimingCoordination, htp, hsort, hlen, if_false]
  norm_num [timingClustersOf, copyTimed, clusterStep, mkCluster]

/-- The mention graph of the copy-paste posts is edgeless: no suspicious
network patterns. -/
theorem copy_network :
    analyzeNetworkStructure (buildInteractionNetwork copyPastePosts
      [alice, bob]) = ⟨2, 0, 0, 0, 2, []⟩ := by
  have hg : buildInteractionNetwork copyPastePosts [alice, bob] =
      ⟨["u1", "u2"], []⟩ := by
    simp +decide [buildInteractionNetwork, copyPastePosts, mkPost, alice, bob,
      mkAuthor, addNode, authorId, pyOr, strTruthy]
  rw [hg]
  simp only [analyzeNetworkStructure]
  norm_num [qmean, localClustering, neighbors, degree, componentCount,
    mergeParts, List.min?, List.max?, counter]

theorem copy_ampl :
    (detectAmplificationPatterns copyPastePosts).amplification_strength = 0 := by
  have hg : hashtagGroups copyPastePosts = [] := by
    simp [hashtagGroups, copyPastePosts, mkPost]
  simp only [detectAmplificationPatterns, hg]
  norm_num

theorem copy_extract : extractAuthors copyPastePosts = [alice, bob] := by
  simp +decide [extractAuthors, copyPastePosts, mkPost, alice, bob, mkAuthor,
    authorId, pyOr, strTruthy]

/-- The weighted coordination score of the copy-paste input is `0.75`:
text, timing and behavioral strengths `1`, network and amplification `0`. -/
theorem copy_score_calc :
    calculateCoordinationScore
      (detectTextSimilarityCoordination copyPastePosts)
      (detectTimingCoordination copyPastePosts)
      (detectBehavioralCoordination 0 [alice, bob] copyPastePosts)
      (analyzeNetworkStructure (buildInteractionNetwork copyPastePosts
        [alice, bob]))
      (detectAmplificationPatterns copyPastePosts) = 3 / 4 := by
  rw [calculateCoordinationScore, copy_text_strength, copy_timing_strength,
    copy_behavioral_strength, copy_network, copy_ampl]
  norm_num

/-- Full coordination evaluation of the two-author copy-paste input:
score `0.75`, two distinct authors, flag raised. -/
theorem copy_coordination :
    (detectCoordination 0 copyPastePosts none).coordination_score = 3 / 4 ∧
    (detectCoordination 0 copyPastePosts none).total_authors = 2 ∧
    (detectCoordination 0 copyPastePosts none).suspected_coordination = true := by
  have hng : ¬ (copyPastePosts.length < 3) := by decide
  refine ⟨?_, ?_, ?_⟩ <;>
    simp only [detectCoordination, hng, if_false, Option.getD_none, copy_extract]
  · exact copy_score_calc
  · rfl
  · rw [copy_score_calc]
    simp only [decide_eq_true_eq]
    norm_num

/-- The same evaluation with the author list passed explicitly. -/
theorem copy_coordination_some :
    (detectCoordination 0 copyPastePosts
      (some [alice, bob])).coordination_score = 3 / 4 := by
  have hng : ¬ (copyPastePosts.length < 3) := by decide
  simp only [detectCoordination, hng, if_false, Option.getD_some]
  exact copy_score_calc

/-- With a raising stance collaborator, the single `try` block of
`_run_analysis_pipeline` aborts after the toxicity step: the stance,
coordination, bot, network, burst and narrative keys are never written. -/
theorem pipeline_stance_abort :
    runAnalysisPipeline stanceFailCollab 0 copyPastePosts [alice, bob] =
      ⟨some [⟨0⟩, ⟨0⟩, ⟨0⟩, ⟨0⟩, ⟨0⟩], none, none, none, none, none, none⟩ := by
  have htox : copyPastePosts.mapM (fun p =>
      stanceFailCollab.classify_toxicity p.text_content p.language) =
      Except.ok [⟨0⟩, ⟨0⟩, ⟨0⟩, ⟨0⟩, ⟨0⟩] := rfl
  have hst : copyPastePosts.mapM (fun p =>
      stanceFailCollab.detect_stance p.text_content p.language) =
      (Except.error () : Except Unit (List StanceResult)) := rfl
  simp only [runAnalysisPipeline, htox, hst]

end Cyber.Facts

namespace Cyber.Claims

open Cyber Cyber.Coordination Cyber.Examples

/-- **C4 (amended).** `suspected_coordination` is exactly
`coordination_score > 0.6`; the "≥ 3" requirement is a guard on the *number
of posts* (fewer than 3 posts yield the empty result with the flag down),
not on the number of distinct accounts involved. -/
theorem C4_flag_is_score_threshold :
    (∀ (now : ℚ) (posts : List Post) (authors : Option (List Author)),
      ¬ (posts.length < 3) →
        ((detectCoordination now posts authors).suspected_coordination = true ↔
          (6 : ℝ) / 10 <
            (detectCoordination now posts authors).coordination_score)) ∧
    (∀ (now : ℚ) (posts : List Post) (authors : Option (List Author)),
      posts.length < 3 →
        detectCoordination now posts authors = emptyCoordinationResult) := by
  constructor
  · intro now posts authors h
    simp [detectCoordination, h]
  · intro now posts authors h
    simp [detectCoordination, h]

/-- **C4 (counterexample).** An input with only **2** distinct authors
(five copy-paste posts in 20 minutes) reaches coordination score `0.75`
and is flagged `suspected_coordination = true`, contradicting the claim
that fewer than 3 distinct authors can never raise the flag. -/
theorem C4_counterexample :
    (detectCoordination 0 Examples.copyPastePosts none).suspected_coordination
        = true ∧
      (detectCoordination 0 Examples.copyPastePosts none).total_authors = 2 ∧
      (detectCoordination 0 Examples.copyPastePosts none).coordination_score
        = 3 / 4 :=
  ⟨Facts.copy_coordination.2.2, Facts.copy_coordination.2.1,
    Facts.copy_coordination.1⟩

/-- Witness for the amended C4 at the empty post list. -/
theorem C4_witness :
    (([] : List Post).length < 3) ∧
      detectCoordination 0 [] none = emptyCoordinationResult :=
  ⟨by decide, C4_flag_is_score_threshold.2 0 [] none (by decide)⟩

end Cyber.Claims

namespace Cyber.Claims

open Cyber Cyber.Coordination Cyber.Campaign Cyber.Examples

/-- **C3 (refuted: code bug).** The analysis pipeline has a single
catch-all, not per-step error boundaries: with a collaborator whose stance
classifier raises, the toxicity result is recorded but the coordination,
bot, bot-network, burst and narrative steps are never run, so the
coordination component scores `0` — even though the coordination detector
applied directly to the same posts and authors computes score `0.75`.
One failing signal zeroes out unrelated signals. -/
theorem C3_single_catchall :
    (runAnalysisPipeline stanceFailCollab 0 copyPastePosts [alice, bob]).toxicity
        = some [⟨0⟩, ⟨0⟩, ⟨0⟩, ⟨0⟩, ⟨0⟩] ∧
    (runAnalysisPipeline stanceFailCollab 0 copyPastePosts
        [alice, bob]).coordination = none ∧
    (runAnalysisPipeline stanceFailCollab 0 copyPastePosts
        [alice, bob]).burst_detection = none ∧
    (calculateComponentScores (runAnalysisPipeline stanceFailCollab 0
        copyPastePosts [alice, bob])).coordination = 0 ∧
    (detectCoordination 0 copyPastePosts
        (some [alice, bob])).coordination_score = 3 / 4 := by
  refine ⟨?_, ?_, ?_, ?_, Facts.copy_coordination_some⟩ <;>
    rw [Facts.pipeline_stance_abort]
  simp [calculateComponentScores]

end Cyber.Claims

namespace Cyber.Facts

open Cyber Cyber.Coordination Cyber.Bot Cyber.Burst Cyber.Campaign

/-- `min 1 x` of a nonnegative rational stays in `[0,1]`. -/
theorem min_one_mem {x : ℚ} (hx : 0 ≤ x) : 0 ≤ min 1 x ∧ min 1 x ≤ 1 :=
  ⟨le_min zero_le_one hx, min_le_left _ _⟩

theorem sum_map_sub_succ : ∀ (l : List ℕ) (m : ℕ), (∀ i ∈ l, i < m) →
    (l.map fun i => m + 1 - (i + 1)).sum = (l.map fun i => m - (i + 1)).sum + l.length := by
  intro l m
  induction l with
  | nil => intro _; simp
  | cons a t ih =>
    intro h
    have ha : a < m := h a (by simp)
    have ht := ih fun i hi => h i (by simp [hi])
    simp only [List.map_cons, List.sum_cons, List.length_cons]
    omega

/-- Exact count of the `i < j` index pairs: twice the length plus `n`
is `n²`. -/
theorem indexPairs_two_mul (n : ℕ) : 2 * (indexPairs n).length + n = n * n := by
  have key : ∀ m : ℕ,
      2 * (((List.range m).map fun i => m - (i + 1)).sum) + m = m * m := by
    intro m
    induction m with
    | zero => simp
    | succ k ih =>
      rw [List.range_succ, List.map_append, List.sum_append]
      simp only [List.map_cons, List.map_nil, List.sum_cons, List.sum_nil]
      rw [sum_map_sub_succ (List.range k) k fun i hi => List.mem_range.mp hi]
      simp only [List.length_range]
      have hkk : k * k + 2 * k + 1 = (k + 1) * (k + 1) := by ring
      omega
  have hlen : (indexPairs n).length
      = ((List.range n).map fun i => n - (i + 1)).sum := by
    rw [indexPairs, List.length_flatMap]
    congr 1
    refine List.map_congr_left fun i _ => ?_
    simp [Function.comp, List.length_drop, List.length_map, List.length_range]
  rw [hlen]; exact key n

/-- The rational pair count is bounded by the Python denominator
`max(1, n*(n-1)/2)`. -/
theorem indexPairs_cast_le (n : ℕ) :
    ((indexPairs n).length : ℚ) ≤ max 1 ((n : ℚ) * ((n : ℚ) - 1) / 2) := by
  refine le_trans ?_ (le_max_right _ _)
  have h := indexPairs_two_mul n
  have hq : 2 * ((indexPairs n).length : ℚ) + (n : ℚ) = (n : ℚ) * (n : ℚ) := by
    exact_mod_cast congrArg (fun k : ℕ => (k : ℚ)) h
  linarith

/-- Bounds for `a / max 1 b` with `0 ≤ a ≤ max 1 b`. -/
theorem ratio_bounds {a b : ℚ} (h0 : 0 ≤ a) (h : a ≤ max 1 b) :
    0 ≤ a / max 1 b ∧ a / max 1 b ≤ 1 := by
  have hb : (0 : ℚ) < max 1 b := lt_of_lt_of_le one_pos (le_max_left _ _)
  exact ⟨div_nonneg h0 hb.le, (div_le_one hb).mpr h⟩

/-- The text coordination strength lies in `[0,1]`. -/
theorem text_strength_bounds (posts : List Post) :
    0 ≤ (detectTextSimilarityCoordination posts).coordination_strength ∧
      (detectTextSimilarityCoordination posts).coordination_strength ≤ 1 := by
  simp only [detectTextSimilarityCoordination]
  split_ifs with h1 h2
  · simp [defaultTextCoordination]
  · simp [defaultTextCoordination]
  · refine ratio_bounds (Nat.cast_nonneg _) ?_
    refine le_trans ?_ (indexPairs_cast_le (textsAndMeta posts).length)
    have hfm : (similarPairs posts).length
        ≤ (indexPairs (textsAndMeta posts).length).length := by
      simp only [similarPairs]
      exact List.length_filterMap_le _ _
    exact_mod_cast hfm

end Cyber.Facts

namespace Cyber.Facts

open Cyber Cyber.Coordination Cyber.Bot Cyber.Burst Cyber.Campaign

/-- The emitted clusters never hold more posts than were fed in. -/
theorem clusterStep_size_sum :
    ∀ (rest cur : List TimedPost),
      ((clusterStep rest cur).map (·.size)).sum ≤ cur.length + rest.length := by
  intro rest
  induction rest with
  | nil =>
    intro cur
    simp only [clusterStep]
    split
    · simp [mkCluster]
    · simp
  | cons p rest ih =>
    intro cur
    simp only [clusterStep]
    split
    · refine le_trans (ih (cur ++ [p])) ?_
      simp only [List.length_append, List.length_cons, List.length_nil]
      omega
    · rw [List.map_append, List.sum_append]
      have h2 := ih [p]
      simp only [List.length_cons, List.length_nil] at h2
      split
      · simp only [List.map_cons, List.map_nil, List.sum_cons, List.sum_nil,
          mkCluster]
        simp only [List.length_cons]
        omega
      · simp only [List.map_nil, List.sum_nil, List.length_cons]
        omega

theorem timingClusters_size_sum (l : List TimedPost) :
    ((timingClustersOf l).map (·.size)).sum ≤ l.length := by
  match l with
  | [] => simp [timingClustersOf]
  | p :: rest =>
    simp only [timingClustersOf]
    have h := clusterStep_size_sum rest [p]
    simp only [List.length_cons, List.length_nil] at h ⊢
    omega

/-- The timing coordination strength lies in `[0,1]`. -/
theorem timing_strength_bounds (posts : List Post) :
    0 ≤ (detectTimingCoordination posts).coordination_strength ∧
      (detectTimingCoordination posts).coordination_strength ≤ 1 := by
  simp only [detectTimingCoordination]
  split_ifs with h1 h2
  · exact ⟨le_refl 0, zero_le_one⟩
  · exact ⟨le_refl 0, zero_le_one⟩
  · have hpos : 0 < (timedPosts posts).length := by omega
    have hq : (0 : ℚ) < ((timedPosts posts).length : ℚ) := by exact_mod_cast hpos
    have hcast : (List.map (fun x : TimingCluster => (x.size : ℚ))
        (timingClustersOf (sortByTime (timedPosts posts)))).sum
        = ((((timingClustersOf (sortByTime (timedPosts posts))).map
          (·.size)).sum : ℕ) : ℚ) := by
      rw [Nat.cast_list_sum, List.map_map]
      rfl
    constructor
    · refine div_nonneg ?_ hq.le
      rw [hcast]
      exact Nat.cast_nonneg _
    · apply (div_le_one hq).mpr
      rw [hcast]
      have hs : ((timingClustersOf (sortByTime (timedPosts posts))).map
          (·.size)).sum ≤ (timedPosts posts).length := by
        refine le_trans (timingClusters_size_sum _) ?_
        simp [sortByTime, List.length_mergeSort]
      exact_mod_cast hs

/-- The behavioral coordination strength lies in `[0,1]`. -/
theorem behavioral_strength_bounds (now : ℚ) (authors : List Author)
    (posts : List Post) :
    0 ≤ (detectBehavioralCoordination now authors posts).coordination_strength ∧
      (detectBehavioralCoordination now authors posts).coordination_strength
        ≤ 1 := by
  simp only [detectBehavioralCoordination]
  split_ifs with h1
  · exact ⟨le_refl 0, zero_le_one⟩
  · refine ratio_bounds (Nat.cast_nonneg _) ?_
    refine le_trans ?_
      (indexPairs_cast_le (authorFeatureList now posts authors).length)
    have hfm : (behavioralPairs (authorFeatureList now posts authors)).length
        ≤ (indexPairs (authorFeatureList now posts authors).length).length := by
      simp only [behavioralPairs]
      exact List.length_filterMap_le _ _
    exact_mod_cast hfm

/-- The amplification strength lies in `[0,1]`. -/
theorem ampl_strength_bounds (posts : List Post) :
    0 ≤ (detectAmplificationPatterns posts).amplification_strength ∧
      (detectAmplificationPatterns posts).amplification_strength ≤ 1 := by
  simp only [detectAmplificationPatterns]
  refine ratio_bounds (Nat.cast_nonneg _) ?_
  refine le_trans ?_ (le_max_right _ _)
  exact_mod_cast List.length_filterMap_le _ _

end Cyber.Facts

namespace Cyber.Facts

open Cyber Cyber.Coordination Cyber.Bot Cyber.Burst Cyber.Campaign

/-- The weighted coordination aggregate stays in `[0,1]` whenever the five
strengths are nonnegative. -/
theorem calcCoordScore_bounds (text : TextCoordination)
    (timing : TimingCoordination) (behavioral : BehavioralCoordination)
    (network : NetworkAnalysis) (ampl : AmplificationPatterns)
    (h1 : 0 ≤ text.coordination_strength)
    (h2 : 0 ≤ timing.coordination_strength)
    (h3 : 0 ≤ behavioral.coordination_strength)
    (h4 : 0 ≤ ampl.amplification_strength) :
    0 ≤ calculateCoordinationScore text timing behavioral network ampl ∧
      calculateCoordinationScore text timing behavioral network ampl ≤ 1 := by
  unfold calculateCoordinationScore
  have e1 : (0 : ℝ) ≤ (text.coordination_strength : ℝ) := by exact_mod_cast h1
  have e2 : (0 : ℝ) ≤ (timing.coordination_strength : ℝ) := by exact_mod_cast h2
  have e3 : (0 : ℝ) ≤ (behavioral.coordination_strength : ℝ) := by
    exact_mod_cast h3
  have e4 : (0 : ℝ) ≤ (ampl.amplification_strength : ℝ) := by exact_mod_cast h4
  have e5 : (0 : ℝ) ≤ min 1 ((network.suspicious_patterns.length : ℝ) / 3) :=
    le_min zero_le_one (by positivity)
  constructor
  · refine le_min zero_le_one ?_
    nlinarith
  · exact min_le_left _ _

/-- The aggregate coordination score of `detect_coordination` lies in
`[0,1]`. -/
theorem detectCoordination_score_bounds (now : ℚ) (posts : List Post)
    (authors : Option (List Author)) :
    0 ≤ (detectCoordination now posts authors).coordination_score ∧
      (detectCoordination now posts authors).coordination_score ≤ 1 := by
  simp only [detectCoordination]
  split_ifs with h
  · simp [emptyCoordinationResult]
  · exact calcCoordScore_bounds _ _ _ _ _
      (text_strength_bounds posts).1 (timing_strength_bounds posts).1
      (behavioral_strength_bounds now (authors.getD (extractAuthors posts))
        posts).1
      (ampl_strength_bounds posts).1

/-- `_analyze_username_pattern` lies in `[0,1]`. -/
theorem username_bounds (a : Author) :
    0 ≤ analyzeUsernamePattern a ∧ analyzeUsernamePattern a ≤ 1 := by
  simp only [analyzeUsernamePattern]
  split_ifs <;> first
    | norm_num
    | exact min_one_mem (by norm_num)

/-- `_analyze_profile_completeness` lies in `[0,1]`. -/
theorem profile_bounds (a : Author) :
    0 ≤ analyzeProfileCompleteness a ∧ analyzeProfileCompleteness a ≤ 1 := by
  simp only [analyzeProfileCompleteness]
  split_ifs <;> norm_num

/-- `_analyze_posting_frequency` lies in `[0,1]`. -/
theorem frequency_bounds (posts : List Post) :
    0 ≤ analyzePostingFrequency posts ∧ analyzePostingFrequency posts ≤ 1 := by
  simp only [analyzePostingFrequency]
  split_ifs <;> norm_num

/-- `_analyze_temporal_patterns` lies in `[0,1]`. -/
theorem temporal_bounds (posts : List Post) :
    0 ≤ analyzeTemporalPatterns posts ∧ analyzeTemporalPatterns posts ≤ 1 := by
  simp only [analyzeTemporalPatterns]
  split_ifs <;> first
    | norm_num
    | exact min_one_mem (by norm_num)

/-- `_analyze_content_diversity` lies in `[0,1]`. -/
theorem diversity_bounds (posts : List Post) :
    0 ≤ analyzeContentDiversity posts ∧ analyzeContentDiversity posts ≤ 1 := by
  simp only [analyzeContentDiversity]
  split_ifs <;> first
    | norm_num
    | exact min_one_mem (by norm_num)

/-- `_analyze_engagement_patterns` lies in `[0,1]`. -/
theorem engagement_bounds (posts : List Post) :
    0 ≤ analyzeEngagementPatterns posts ∧ analyzeEngagementPatterns posts ≤ 1 := by
  simp only [analyzeEngagementPatterns]
  split_ifs <;> norm_num

/-- `_analyze_network_behavior` lies in `[0,1]`. -/
theorem network_behavior_bounds (a : Author) (posts : List Post) :
    0 ≤ analyzeNetworkBehavior a posts ∧ analyzeNetworkBehavior a posts ≤ 1 := by
  simp only [analyzeNetworkBehavior]
  exact min_one_mem (by split_ifs <;> norm_num)

/-- The fixed-weight bot score stays in `[0,1]` for component scores in
`[0,1]`. -/
theorem botWeighted_bounds (s : BotComponentScores)
    (h1 : 0 ≤ s.username_pattern ∧ s.username_pattern ≤ 1)
    (h2 : 0 ≤ s.profile_completeness ∧ s.profile_completeness ≤ 1)
    (h3 : 0 ≤ s.posting_frequency ∧ s.posting_frequency ≤ 1)
    (h4 : 0 ≤ s.temporal_patterns ∧ s.temporal_patterns ≤ 1)
    (h5 : 0 ≤ s.content_diversity ∧ s.content_diversity ≤ 1)
    (h6 : 0 ≤ s.engagement_patterns ∧ s.engagement_patterns ≤ 1)
    (h7 : 0 ≤ s.network_behavior ∧ s.network_behavior ≤ 1) :
    0 ≤ botWeightedScore s ∧ botWeightedScore s ≤ 1 := by
  unfold botWeightedScore
  obtain ⟨a1, b1⟩ := h1
  obtain ⟨a2, b2⟩ := h2
  obtain ⟨a3, b3⟩ := h3
  obtain ⟨a4, b4⟩ := h4
  obtain ⟨a5, b5⟩ := h5
  obtain ⟨a6, b6⟩ := h6
  obtain ⟨a7, b7⟩ := h7
  constructor <;> nlinarith

/-- `calculate_bot_likelihood` returns a score in `[0,1]`. -/
theorem botLikelihood_bounds (now : ℚ) (a : Author) (posts : List Post) :
    0 ≤ (calculateBotLikelihood now a posts).bot_likelihood_score ∧
      (calculateBotLikelihood now a posts).bot_likelihood_score ≤ 1 := by
  simp only [calculateBotLikelihood]
  by_cases h : a = emptyAuthor
  · rw [if_pos h]
    simp [emptyBotResult]
  · rw [if_neg h]
    exact botWeighted_bounds _ (username_bounds a) (profile_bounds a)
      (frequency_bounds posts) (temporal_bounds posts) (diversity_bounds posts)
      (engagement_bounds posts) (network_behavior_bounds a posts)

end Cyber.Facts

namespace Cyber.Facts

open Cyber Cyber.Coordination Cyber.Bot Cyber.Burst Cyber.Campaign

set_option maxHeartbeats 1000000 in
/-- `analyze_bot_network` returns a network score in `[0,1]`. -/
theorem botNetwork_bounds (now : ℚ) (authors : List Author)
    (posts : List Post) :
    0 ≤ (analyzeBotNetwork now authors posts).network_score ∧
      (analyzeBotNetwork now authors posts).network_score ≤ 1 := by
  simp only [analyzeBotNetwork]
  by_cases h : authors.length < 3
  · rw [if_pos h]
    norm_num
  · rw [if_neg h]
    refine min_one_mem ?_
    split_ifs with c1 c2 c3 c4
    · refine add_nonneg ?_
        (mul_nonneg (div_nonneg (Nat.cast_nonneg _) (le_of_lt c3)) ?_) <;>
        norm_num
    · norm_num
    · refine add_nonneg le_rfl
        (mul_nonneg (div_nonneg (Nat.cast_nonneg _) (le_of_lt c4)) ?_)
      norm_num
    · norm_num
    · norm_num

/-- The burst coordination indicators score lies in `[0,1]`. -/
theorem burstPatterns_bounds (posts : List Post) (ba : BurstAnalysis) :
    0 ≤ (detectCoordinationPatterns posts ba).coordination_score ∧
      (detectCoordinationPatterns posts ba).coordination_score ≤ 1 := by
  simp only [detectCoordinationPatterns]
  exact min_one_mem (by split_ifs <;> norm_num)

/-- `detect_bursts` returns a coordination score in `[0,1]`. -/
theorem detectBursts_coord_bounds (now : ℚ) (posts : List Post) (w : ℕ) :
    0 ≤ (detectBursts now posts w).coordination_indicators.coordination_score ∧
      (detectBursts now posts
        w).coordination_indicators.coordination_score ≤ 1 := by
  simp only [detectBursts]
  split_ifs with h1 h2
  · simp [emptyBurstResult]
  · simp [emptyBurstResult]
  · exact burstPatterns_bounds _ _

/-- The mean of a list of rationals in `[0,1]` lies in `[0,1]`. -/
theorem qmean_bounds {l : List ℚ} (hne : l ≠ [])
    (h : ∀ x ∈ l, 0 ≤ x ∧ x ≤ 1) : 0 ≤ qmean l ∧ qmean l ≤ 1 := by
  have hpos : 0 < l.length := List.length_pos.mpr hne
  have hq : (0 : ℚ) < (l.length : ℚ) := by exact_mod_cast hpos
  unfold qmean
  constructor
  · exact div_nonneg (List.sum_nonneg fun x hx => (h x hx).1) hq.le
  · apply (div_le_one hq).mpr
    have := List.sum_le_card_nsmul l 1 fun x hx => (h x hx).2
    simpa using this

/-- A filtered-length fraction lies in `[0,1]` for a nonempty list. -/
theorem filter_frac_bounds {α : Type} (p : α → Bool) (l : List α)
    (hne : l ≠ []) :
    0 ≤ ((l.filter p).length : ℚ) / (l.length : ℚ) ∧
      ((l.filter p).length : ℚ) / (l.length : ℚ) ≤ 1 := by
  have hpos : 0 < l.length := List.length_pos.mpr hne
  have hq : (0 : ℚ) < (l.length : ℚ) := by exact_mod_cast hpos
  constructor
  · exact div_nonneg (Nat.cast_nonneg _) hq.le
  · apply (div_le_one hq).mpr
    exact_mod_cast List.length_filter_le p l

/-- An `Except`-valued `mapM` succeeds only with outputs that the function
produced on members of the input list. -/
theorem mapM_ok_mem {α β : Type} (f : α → Except Unit β) :
    ∀ (l : List α) (out : List β), l.mapM f = Except.ok out →
      ∀ b ∈ out, ∃ a ∈ l, f a = Except.ok b := by
  intro l
  induction l with
  | nil =>
    intro out h b hb
    simp only [List.mapM_nil, pure, Except.pure, Except.ok.injEq] at h
    subst h
    simp at hb
  | cons a t ih =>
    intro out h b hb
    rw [List.mapM_cons] at h
    cases hfa : f a with
    | error e =>
      rw [hfa] at h
      simp [Bind.bind, Except.bind] at h
    | ok x =>
      rw [hfa] at h
      cases hts : t.mapM f with
      | error e =>
        rw [hts] at h
        simp [Bind.bind, Except.bind] at h
      | ok xs =>
        rw [hts] at h
        simp only [Bind.bind, Except.bind, pure, Except.pure,
          Except.ok.injEq] at h
        subst h
        rcases List.mem_cons.mp hb with rfl | hb2
        · exact ⟨a, List.mem_cons_self a t, hfa⟩
        · obtain ⟨a2, ha2, hfa2⟩ := ih xs hts b hb2
          exact ⟨a2, List.mem_cons_of_mem a ha2, hfa2⟩

end Cyber.Facts

namespace Cyber.Facts

open Cyber Cyber.Coordination Cyber.Bot Cyber.Burst Cyber.Campaign

/-- `min 100 x` of a nonnegative real stays in `[0,100]`. -/
theorem min100_mem {x : ℝ} (hx : 0 ≤ x) : 0 ≤ min 100 x ∧ min 100 x ≤ 100 :=
  ⟨le_min (by norm_num) hx, min_le_left _ _⟩

/-- Rational `[0,1]` bounds transfer to the real cast. -/
theorem cast_unit_bounds {q : ℚ} (h : 0 ≤ q ∧ q ≤ 1) :
    (0 : ℝ) ≤ (q : ℝ) ∧ (q : ℝ) ≤ 1 :=
  ⟨by exact_mod_cast h.1, by exact_mod_cast h.2⟩

/-- All six component scores lie in `[0,100]` whenever the pipeline fields
carry in-range values. -/
theorem componentScores_bounds (r : PipelineResults)
    (htox : ∀ l, r.toxicity = some l →
      ∀ t ∈ l, 0 ≤ t.toxicity_score ∧ t.toxicity_score ≤ 1)
    (hst : ∀ l, r.stance = some l →
      ∀ t ∈ l, 0 ≤ t.anti_india ∧ t.anti_india ≤ 1)
    (hco : ∀ x, r.coordination = some x →
      0 ≤ x.coordination_score ∧ x.coordination_score ≤ 1)
    (hbn : ∀ x, r.bot_network = some x →
      0 ≤ x.network_score ∧ x.network_score ≤ 1)
    (hbu : ∀ x, r.burst_detection = some x →
      0 ≤ x.coordination_indicators.coordination_score ∧
        x.coordination_indicators.coordination_score ≤ 1) :
    componentsInRange (calculateComponentScores r) := by
  unfold componentsInRange
  refine ⟨?_, ?_, ?_, ?_, ?_, ?_⟩
  · -- toxicity
    simp only [calculateComponentScores]
    cases hrt : r.toxicity with
    | none => simp
    | some l =>
      by_cases hl : l = []
      · subst hl; simp
      · have hb := htox l hrt
        have hmm : ∀ x ∈ l.map (fun t => t.toxicity_score), 0 ≤ x ∧ x ≤ 1 := by
          intro x hx
          obtain ⟨t, ht, rfl⟩ := List.mem_map.mp hx
          exact hb t ht
        have hne : l.map (fun t => t.toxicity_score) ≠ [] := by simpa using hl
        have hmean := cast_unit_bounds (qmean_bounds hne hmm)
        have hfrac := cast_unit_bounds (filter_frac_bounds
          (fun t => decide ((7 : ℚ) / 10 < t.toxicity_score)) l hl)
        rw [Option.getD_some, if_neg (by simpa using hl)]
        refine ⟨le_min (by norm_num) (add_nonneg (mul_nonneg ?_ (by norm_num))
          (mul_nonneg ?_ (by norm_num))), min_le_left _ _⟩
        · exact hmean.1
        · exact hfrac.1
  · -- stance
    simp only [calculateComponentScores]
    cases hrs : r.stance with
    | none => simp
    | some l =>
      by_cases hl : l = []
      · subst hl; simp
      · have hb := hst l hrs
        have hmm : ∀ x ∈ l.map (fun t => t.anti_india), 0 ≤ x ∧ x ≤ 1 := by
          intro x hx
          obtain ⟨t, ht, rfl⟩ := List.mem_map.mp hx
          exact hb t ht
        have hne : l.map (fun t => t.anti_india) ≠ [] := by simpa using hl
        have hmean := cast_unit_bounds (qmean_bounds hne hmm)
        have hfrac := cast_unit_bounds (filter_frac_bounds
          (fun t => decide ((6 : ℚ) / 10 < t.anti_india)) l hl)
        rw [Option.getD_some, if_neg (by simpa using hl)]
        refine ⟨le_min (by norm_num) (add_nonneg (mul_nonneg ?_ (by norm_num))
          (mul_nonneg ?_ (by norm_num))), min_le_left _ _⟩
        · exact hmean.1
        · exact hfrac.1
  · -- coordination
    simp only [calculateComponentScores]
    cases hrc : r.coordination with
    | none => simp
    | some x =>
      obtain ⟨u1, u2⟩ := hco x hrc
      simp only [Option.elim_some]
      constructor <;> nlinarith
  · -- bot network
    simp only [calculateComponentScores]
    cases hbd : r.bot_detection with
    | none => simp
    | some lb =>
      by_cases hl : lb = []
      · subst hl; simp
      · have hnet : (0 : ℝ) ≤
            ((r.bot_network.elim 0 (fun y => y.network_score) : ℚ) : ℝ) := by
          refine (cast_unit_bounds ?_).1
          cases hrn : r.bot_network with
          | none => simp
          | some y => simpa using hbn y hrn
        have hfrac := cast_unit_bounds (filter_frac_bounds
          (fun b => decide ((7 : ℚ) / 10 < b.bot_likelihood_score)) lb hl)
        rw [Option.getD_some, if_neg (by simpa using hl)]
        refine ⟨le_min (by norm_num) (add_nonneg (mul_nonneg ?_ (by norm_num))
          (mul_nonneg ?_ (by norm_num))), min_le_left _ _⟩
        · exact hnet
        · exact hfrac.1
  · -- burst activity
    simp only [calculateComponentScores]
    have hb : (0 : ℝ) ≤ ((r.burst_detection.elim 0
        (fun y => y.coordination_indicators.coordination_score) : ℚ) : ℝ) := by
      refine (cast_unit_bounds ?_).1
      cases hrb : r.burst_detection with
      | none => simp
      | some x => simpa using hbu x hrb
    refine ⟨le_min (by norm_num) (add_nonneg (mul_nonneg hb (by norm_num))
      (le_min (by norm_num) (mul_nonneg (by
        cases r.burst_detection with
        | none => simp
        | some x => simp [Option.elim_some]) (by norm_num)))),
      min_le_left _ _⟩
  · -- narrative threat
    simp only [calculateComponentScores]
    cases hrn : r.narrative_clustering with
    | none => simp
    | some nr =>
      simp only [Option.map_some', Option.getD_some]
      by_cases hcl : nr.clusters = []
      · simp [hcl]
      · have hfrac := cast_unit_bounds (filter_frac_bounds
          (fun s => decide ((6 / 10 : ℚ) < s.avg_toxicity ∨
            s.avg_stance < -(6 / 10 : ℚ))) nr.clusters hcl)
        rw [if_neg (by simpa using hcl)]
        constructor
        · exact mul_nonneg hfrac.1 (by norm_num)
        · nlinarith [hfrac.1, hfrac.2]

end Cyber.Facts

namespace Cyber.Facts

open Cyber Cyber.Coordination Cyber.Bot Cyber.Burst Cyber.Campaign

/-- Every field the pipeline can fill is in range: classifier outputs obey
the collaborator contract, and the detector scores obey their own bounds. -/
theorem pipeline_fields_bounds (c : Collaborators) (hc : collabInRange c)
    (now : ℚ) (posts : List Post) (authors : List Author) :
    (∀ l, (runAnalysisPipeline c now posts authors).toxicity = some l →
      ∀ t ∈ l, 0 ≤ t.toxicity_score ∧ t.toxicity_score ≤ 1) ∧
    (∀ l, (runAnalysisPipeline c now posts authors).stance = some l →
      ∀ t ∈ l, 0 ≤ t.anti_india ∧ t.anti_india ≤ 1) ∧
    (∀ x, (runAnalysisPipeline c now posts authors).coordination = some x →
      0 ≤ x.coordination_score ∧ x.coordination_score ≤ 1) ∧
    (∀ x, (runAnalysisPipeline c now posts authors).bot_network = some x →
      0 ≤ x.network_score ∧ x.network_score ≤ 1) ∧
    (∀ x, (runAnalysisPipeline c now posts authors).burst_detection = some x →
      0 ≤ x.coordination_indicators.coordination_score ∧
        x.coordination_indicators.coordination_score ≤ 1) := by
  unfold runAnalysisPipeline
  cases h1 : posts.mapM
      (fun p => c.classify_toxicity p.text_content p.language) with
  | error e =>
    refine ⟨?_, ?_, ?_, ?_, ?_⟩ <;> · intro l hl; simp at hl
  | ok tox =>
    have htox : ∀ t ∈ tox, 0 ≤ t.toxicity_score ∧ t.toxicity_score ≤ 1 := by
      intro t ht
      obtain ⟨p, _, hp⟩ := mapM_ok_mem _ posts tox h1 t ht
      exact hc.1 _ _ _ hp
    cases h2 : posts.mapM
        (fun p => c.detect_stance p.text_content p.language) with
    | error e =>
      refine ⟨?_, ?_, ?_, ?_, ?_⟩
      · intro l hl
        simp only [Option.some.injEq] at hl
        subst hl
        exact htox
      all_goals intro l hl; simp at hl
    | ok st =>
      have hstb : ∀ t ∈ st, 0 ≤ t.anti_india ∧ t.anti_india ≤ 1 := by
        intro t ht
        obtain ⟨p, _, hp⟩ := mapM_ok_mem _ posts st h2 t ht
        exact hc.2 _ _ _ hp
      cases h3 : c.cluster_narratives posts with
      | error e =>
        refine ⟨?_, ?_, ?_, ?_, ?_⟩
        · intro l hl
          simp only [Option.some.injEq] at hl
          subst hl
          exact htox
        · intro l hl
          simp only [Option.some.injEq] at hl
          subst hl
          exact hstb
        · intro x hx
          simp only [Option.some.injEq] at hx
          subst hx
          exact detectCoordination_score_bounds now posts (some authors)
        · intro x hx
          simp only [Option.some.injEq] at hx
          subst hx
          exact botNetwork_bounds now authors posts
        · intro x hx
          simp only [Option.some.injEq] at hx
          subst hx
          exact detectBursts_coord_bounds now posts 24
      | ok narr =>
        refine ⟨?_, ?_, ?_, ?_, ?_⟩
        · intro l hl
          simp only [Option.some.injEq] at hl
          subst hl
          exact htox
        · intro l hl
          simp only [Option.some.injEq] at hl
          subst hl
          exact hstb
        · intro x hx
          simp only [Option.some.injEq] at hx
          subst hx
          exact detectCoordination_score_bounds now posts (some authors)
        · intro x hx
          simp only [Option.some.injEq] at hx
          subst hx
          exact botNetwork_bounds now authors posts
        · intro x hx
          simp only [Option.some.injEq] at hx
          subst hx
          exact detectBursts_coord_bounds now posts 24

/-- The capped weighted total lies in `[0,100]` for in-range components. -/
theorem finalScore_bounds (cs : ComponentScores) (h : componentsInRange cs) :
    0 ≤ calculateFinalScore cs ∧ calculateFinalScore cs ≤ 100 := by
  obtain ⟨⟨a1, b1⟩, ⟨a2, b2⟩, ⟨a3, b3⟩, ⟨a4, b4⟩, ⟨a5, b5⟩, ⟨a6, b6⟩⟩ := h
  unfold calculateFinalScore weightedTotal
  exact ⟨le_min (by norm_num) (by nlinarith), min_le_left _ _⟩

/-- `score_campaign` keeps the final score and every component in
`[0,100]` under the collaborator contract. -/
theorem scoreCampaign_bounds (c : Collaborators) (hc : collabInRange c)
    (now : ℚ) (posts : List Post) (authors : Option (List Author)) :
    (0 ≤ (scoreCampaign c now posts authors).campaign_score ∧
      (scoreCampaign c now posts authors).campaign_score ≤ 100) ∧
    componentsInRange (scoreCampaign c now posts authors).component_scores := by
  unfold scoreCampaign
  split_ifs with h
  · constructor
    · constructor <;> simp [emptyCampaignScore]
    · unfold emptyCampaignScore zeroComponents componentsInRange
      norm_num
  · have hread := pipeline_fields_bounds c hc now posts
      (authors.getD (extractAuthors posts))
    have hcs := componentScores_bounds _ hread.1 hread.2.1 hread.2.2.1
      hread.2.2.2.1 hread.2.2.2.2
    exact ⟨finalScore_bounds _ hcs, hcs⟩

end Cyber.Facts

namespace Cyber.Claims

open Cyber Cyber.Coordination Cyber.Bot Cyber.Burst Cyber.Campaign

/-- **C1.** Range invariant, confirmed: every internal coordination strength
(text, timing, behavioral, the normalised network pattern strength, and
amplification) lies in `[0,1]`; the aggregate `coordination_score`, the
per-account `bot_likelihood_score`, the bot `network_score` and the burst
`coordination_score` lie in `[0,1]`; and — under the documented `[0,1]`
contract of the collaborator classifiers — every component score and the
final campaign score of `score_campaign` lies in `[0,100]`. -/
theorem C1_range_invariant :
    (∀ posts : List Post,
      0 ≤ (detectTextSimilarityCoordination posts).coordination_strength ∧
        (detectTextSimilarityCoordination posts).coordination_strength ≤ 1) ∧
    (∀ posts : List Post,
      0 ≤ (detectTimingCoordination posts).coordination_strength ∧
        (detectTimingCoordination posts).coordination_strength ≤ 1) ∧
    (∀ (now : ℚ) (authors : List Author) (posts : List Post),
      0 ≤ (detectBehavioralCoordination now authors
          posts).coordination_strength ∧
        (detectBehavioralCoordination now authors
          posts).coordination_strength ≤ 1) ∧
    (∀ na : NetworkAnalysis,
      0 ≤ min 1 ((na.suspicious_patterns.length : ℝ) / 3) ∧
        min 1 ((na.suspicious_patterns.length : ℝ) / 3) ≤ 1) ∧
    (∀ posts : List Post,
      0 ≤ (detectAmplificationPatterns posts).amplification_strength ∧
        (detectAmplificationPatterns posts).amplification_strength ≤ 1) ∧
    (∀ (now : ℚ) (posts : List Post) (authors : Option (List Author)),
      0 ≤ (detectCoordination now posts authors).coordination_score ∧
        (detectCoordination now posts authors).coordination_score ≤ 1) ∧
    (∀ (now : ℚ) (a : Author) (posts : List Post),
      0 ≤ (calculateBotLikelihood now a posts).bot_likelihood_score ∧
        (calculateBotLikelihood now a posts).bot_likelihood_score ≤ 1) ∧
    (∀ (now : ℚ) (authors : List Author) (posts : List Post),
      0 ≤ (analyzeBotNetwork now authors posts).network_score ∧
        (analyzeBotNetwork now authors posts).network_score ≤ 1) ∧
    (∀ (now : ℚ) (posts : List Post) (w : ℕ),
      0 ≤ (detectBursts now posts
          w).coordination_indicators.coordination_score ∧
        (detectBursts now posts
          w).coordination_indicators.coordination_score ≤ 1) ∧
    (∀ (c : Collaborators) (now : ℚ) (posts : List Post)
        (authors : Option (List Author)), collabInRange c →
      (0 ≤ (scoreCampaign c now posts authors).campaign_score ∧
        (scoreCampaign c now posts authors).campaign_score ≤ 100) ∧
      componentsInRange (scoreCampaign c now posts authors).component_scores) :=
  ⟨Facts.text_strength_bounds, Facts.timing_strength_bounds,
    Facts.behavioral_strength_bounds,
    fun na => ⟨le_min zero_le_one (by positivity), min_le_left _ _⟩,
    Facts.ampl_strength_bounds, Facts.detectCoordination_score_bounds,
    Facts.botLikelihood_bounds, Facts.botNetwork_bounds,
    Facts.detectBursts_coord_bounds,
    fun c now posts authors hc => Facts.scoreCampaign_bounds c hc now posts
      authors⟩

/-- Witness for C1 at the copy-paste example with the neutral collaborators:
the contract hypothesis holds and the campaign score is in range. -/
theorem C1_witness :
    Campaign.collabInRange Examples.trivialCollab ∧
      (0 ≤ (Campaign.scoreCampaign Examples.trivialCollab 0
          Examples.copyPastePosts none).campaign_score ∧
        (Campaign.scoreCampaign Examples.trivialCollab 0
          Examples.copyPastePosts none).campaign_score ≤ 100) := by
  have h : Campaign.collabInRange Examples.trivialCollab := by
    constructor <;>
      · intro s l t ht
        cases ht
        exact ⟨le_refl 0, by norm_num⟩
  exact ⟨h, (C1_range_invariant.2.2.2.2.2.2.2.2.2 Examples.trivialCollab 0
    Examples.copyPastePosts none h).1⟩

end Cyber.Claims

namespace Cyber.Facts

open Cyber Cyber.Burst Cyber.Examples

theorem log2_lb : (0.6931471803 : ℝ) < Real.log 2 := Real.log_two_gt_d9

theorem log2_ub : Real.log 2 < 0.6931471808 := Real.log_two_lt_d9

/-- `d1` bound of the low-shaped table produced by a baseline hour. -/
theorem N1 : (1 : ℝ) ≤ 37 / 12 - 2 * Real.log 2 := by
  have h := log2_ub
  norm_num at h ⊢
  linarith

/-- `d2` bound of the low-shaped table produced by a baseline hour. -/
theorem N2 : (2 : ℝ) ≤ 3 * (37 / 12) - 4 * Real.log 2 := by
  have h := log2_ub
  norm_num at h ⊢
  linarith

/-- Entering the burst flips the table into the high shape. -/
theorem N3 : 1 + 2 * (37 / 12 : ℝ) < 15 * Real.log 2 := by
  have h := log2_lb
  norm_num at h ⊢
  linarith

theorem N4 : 2 + 3 * (37 / 12 : ℝ) - 30 * Real.log 2 < 0 := by
  have h := log2_lb
  norm_num at h ⊢
  linarith

theorem N5 : 2 * (37 / 12 : ℝ) < 15 * Real.log 2 := by
  have h := log2_lb
  norm_num at h ⊢
  linarith

theorem N6 : 3 * (37 / 12 : ℝ) < 30 * Real.log 2 := by
  have h := log2_lb
  norm_num at h ⊢
  linarith

/-- The emission-cost differences between states cancel the `log(base)`
term: they are linear in the count and `log 2`. -/
theorem emission_diffs (c : ℕ) (hc : 0 < c) :
    emission synthBase c 1 - emission synthBase c 0
        = (37 / 12 : ℝ) - c * Real.log 2 ∧
      emission synthBase c 2 - emission synthBase c 0
        = 3 * (37 / 12 : ℝ) - 2 * c * Real.log 2 := by
  simp only [emission, rate, if_pos hc]
  have hb : ((synthBase : ℚ) : ℝ) = 37 / 12 := by norm_num [synthBase]
  rw [hb]
  have e0 : (37 / 12 : ℝ) * 2 ^ (((0 : Fin 3) : ℕ)) = 37 / 12 := by norm_num
  have e1 : (37 / 12 : ℝ) * 2 ^ (((1 : Fin 3) : ℕ)) = 37 / 12 * 2 := by
    norm_num
  have e2 : (37 / 12 : ℝ) * 2 ^ (((2 : Fin 3) : ℕ)) = 37 / 12 * 4 := by
    norm_num
  rw [e0, e1, e2]
  rw [Real.log_mul (by norm_num) (by norm_num),
    Real.log_mul (by norm_num) (by norm_num)]
  have l4 : Real.log 4 = 2 * Real.log 2 := by
    rw [show (4 : ℝ) = 2 ^ 2 by norm_num, Real.log_pow]
    push_cast
    ring
  rw [l4]
  constructor <;> ring

/-- The first minimum of a low-shaped table is state `0`. -/
theorem argmin3_tbl_low (x d1 d2 : ℝ) (h1 : 0 ≤ d1) (h2 : 0 ≤ d2) :
    argmin3 (tbl x d1 d2) = 0 := by
  simp only [argmin3, tbl]
  norm_num
  split_ifs <;> first | rfl | (exfalso; linarith)

/-- Backpointers out of a low-shaped table all point to state `0`. -/
theorem bp_low (x d1 d2 : ℝ) (h1 : 1 ≤ d1) (h2 : 2 ≤ d2) (i : Fin 3) :
    argmin3 (fun j => tbl x d1 d2 j + transCost j i) = 0 := by
  fin_cases i <;>
  · simp only [argmin3, tbl, transCost]
    norm_num
    split_ifs <;> first | rfl | (exfalso; linarith)

/-- Backpointers out of a high-shaped table all point to state `2`. -/
theorem bp_high (x d1 d2 : ℝ) (h1 : d2 < d1) (h2 : d2 < 0) (i : Fin 3) :
    argmin3 (fun j => tbl x d1 d2 j + transCost j i) = 2 := by
  fin_cases i <;>
  · simp only [argmin3, tbl, transCost]
    norm_num
    split_ifs <;> first | rfl | (exfalso; linarith)

/-- One DP column from a low-shaped table: constant-`0` backpointers and a
table that is again in `tbl` form. -/
theorem dpStep_low (b : ℚ) (c : ℕ) (x d1 d2 : ℝ) (h1 : 1 ≤ d1) (h2 : 2 ≤ d2) :
    dpStep b c (tbl x d1 d2) =
      (tbl (x + emission b c 0) (1 + emission b c 1 - emission b c 0)
        (2 + emission b c 2 - emission b c 0), fun _ => 0) := by
  unfold dpStep
  refine Prod.ext ?_ ?_
  · funext i
    have hbp := bp_low x d1 d2 h1 h2
    simp only [hbp]
    fin_cases i
    · show tbl x d1 d2 0 + transCost 0 0 + emission b c 0
        = tbl (x + emission b c 0) (1 + emission b c 1 - emission b c 0)
          (2 + emission b c 2 - emission b c 0) 0
      simp only [tbl, transCost]
      norm_num
    · show tbl x d1 d2 0 + transCost 0 1 + emission b c 1
        = tbl (x + emission b c 0) (1 + emission b c 1 - emission b c 0)
          (2 + emission b c 2 - emission b c 0) 1
      simp only [tbl, transCost]
      norm_num
      ring
    · show tbl x d1 d2 0 + transCost 0 2 + emission b c 2
        = tbl (x + emission b c 0) (1 + emission b c 1 - emission b c 0)
          (2 + emission b c 2 - emission b c 0) 2
      simp only [tbl, transCost]
      norm_num
      ring
  · funext i
    exact bp_low x d1 d2 h1 h2 i

/-- One DP column from a high-shaped table: constant-`2` backpointers (the
downward transition is free) and a `tbl`-form table based at `x + d2`. -/
theorem dpStep_high (b : ℚ) (c : ℕ) (x d1 d2 : ℝ) (h1 : d2 < d1)
    (h2 : d2 < 0) :
    dpStep b c (tbl x d1 d2) =
      (tbl (x + d2 + emission b c 0) (emission b c 1 - emission b c 0)
        (emission b c 2 - emission b c 0), fun _ => 2) := by
  unfold dpStep
  refine Prod.ext ?_ ?_
  · funext i
    have hbp := bp_high x d1 d2 h1 h2
    simp only [hbp]
    fin_cases i
    · show tbl x d1 d2 2 + transCost 2 0 + emission b c 0
        = tbl (x + d2 + emission b c 0) (emission b c 1 - emission b c 0)
          (emission b c 2 - emission b c 0) 0
      simp only [tbl, transCost]
      norm_num
    · show tbl x d1 d2 2 + transCost 2 1 + emission b c 1
        = tbl (x + d2 + emission b c 0) (emission b c 1 - emission b c 0)
          (emission b c 2 - emission b c 0) 1
      simp only [tbl, transCost]
      norm_num
      try ring
    · show tbl x d1 d2 2 + transCost 2 2 + emission b c 2
        = tbl (x + d2 + emission b c 0) (emission b c 1 - emission b c 0)
          (emission b c 2 - emission b c 0) 2
      simp only [tbl, transCost]
      norm_num
      try ring
  · funext i
    exact bp_high x d1 d2 h1 h2 i

end Cyber.Facts

namespace Cyber.Facts

open Cyber Cyber.Burst Cyber.Examples

/-- The forward DP distributes over appended count segments. -/
theorem dpFold_append (b : ℚ) : ∀ (l1 l2 : List ℕ) (T : Fin 3 → ℝ)
    (ps : List (Fin 3 → Fin 3)),
    dpFold b (l1 ++ l2) T ps
      = dpFold b l2 (dpFold b l1 T ps).1 (dpFold b l1 T ps).2 := by
  intro l1
  induction l1 with
  | nil => intro l2 T ps; simp [dpFold]
  | cons c t ih =>
    intro l2 T ps
    simp only [List.cons_append, dpFold]
    exact ih l2 _ _

/-- A run of baseline hours keeps the table low-shaped and emits
constant-`0` backpointer columns. -/
theorem dpFold_low2_run : ∀ (n : ℕ) (x d1 d2 : ℝ), 1 ≤ d1 → 2 ≤ d2 →
    ∀ ps : List (Fin 3 → Fin 3),
    ∃ x' d1' d2', dpFold synthBase (List.replicate n 2) (tbl x d1 d2) ps
        = (tbl x' d1' d2',
          ps ++ List.replicate n (fun _ => (0 : Fin 3)))
      ∧ 1 ≤ d1' ∧ 2 ≤ d2' := by
  intro n
  induction n with
  | zero =>
    intro x d1 d2 h1 h2 ps
    exact ⟨x, d1, d2, by simp [dpFold], h1, h2⟩
  | succ m ih =>
    intro x d1 d2 h1 h2 ps
    rw [List.replicate_succ]
    simp only [dpFold]
    rw [dpStep_low synthBase 2 x d1 d2 h1 h2]
    have hd := emission_diffs 2 (by norm_num)
    have hb1 : (1 : ℝ) ≤ 1 + emission synthBase 2 1 - emission synthBase 2 0 := by
      have : 1 + emission synthBase 2 1 - emission synthBase 2 0
          = 1 + (emission synthBase 2 1 - emission synthBase 2 0) := by ring
      rw [this, hd.1]
      have := N1
      push_cast
      linarith
    have hb2 : (2 : ℝ) ≤ 2 + emission synthBase 2 2 - emission synthBase 2 0 := by
      have : 2 + emission synthBase 2 2 - emission synthBase 2 0
          = 2 + (emission synthBase 2 2 - emission synthBase 2 0) := by ring
      rw [this, hd.2]
      have := N2
      push_cast
      linarith
    obtain ⟨x', d1', d2', heq, hc1, hc2⟩ := ih (x + emission synthBase 2 0)
      (1 + emission synthBase 2 1 - emission synthBase 2 0)
      (2 + emission synthBase 2 2 - emission synthBase 2 0) hb1 hb2
      (ps ++ [fun _ => (0 : Fin 3)])
    refine ⟨x', d1', d2', ?_, hc1, hc2⟩
    rw [heq]
    rw [List.append_assoc]
    rw [show ([fun _ => (0 : Fin 3)] ++
        List.replicate m (fun _ => (0 : Fin 3)))
      = List.replicate (m + 1) (fun _ => (0 : Fin 3)) from by
        rw [List.replicate_succ]; rfl]

/-- A run of burst hours keeps the table high-shaped and emits constant-`2`
backpointer columns. -/
theorem dpFold_high15_run : ∀ (n : ℕ) (x d1 d2 : ℝ), d2 < d1 → d2 < 0 →
    ∀ ps : List (Fin 3 → Fin 3),
    ∃ x' d1' d2', dpFold synthBase (List.replicate n 15) (tbl x d1 d2) ps
        = (tbl x' d1' d2',
          ps ++ List.replicate n (fun _ => (2 : Fin 3)))
      ∧ d2' < d1' ∧ d2' < 0 := by
  intro n
  induction n with
  | zero =>
    intro x d1 d2 h1 h2 ps
    exact ⟨x, d1, d2, by simp [dpFold], h1, h2⟩
  | succ m ih =>
    intro x d1 d2 h1 h2 ps
    rw [List.replicate_succ]
    simp only [dpFold]
    rw [dpStep_high synthBase 15 x d1 d2 h1 h2]
    have hd := emission_diffs 15 (by norm_num)
    have hb1 : emission synthBase 15 2 - emission synthBase 15 0
        < emission synthBase 15 1 - emission synthBase 15 0 := by
      rw [hd.1, hd.2]
      have := N5
      push_cast
      linarith
    have hb2 : emission synthBase 15 2 - emission synthBase 15 0 < 0 := by
      rw [hd.2]
      have := N6
      push_cast
      linarith
    obtain ⟨x', d1', d2', heq, hc1, hc2⟩ := ih
      (x + d2 + emission synthBase 15 0)
      (emission synthBase 15 1 - emission synthBase 15 0)
      (emission synthBase 15 2 - emission synthBase 15 0) hb1 hb2
      (ps ++ [fun _ => (2 : Fin 3)])
    refine ⟨x', d1', d2', ?_, hc1, hc2⟩
    rw [heq]
    rw [List.append_assoc]
    rw [show ([fun _ => (2 : Fin 3)] ++
        List.replicate m (fun _ => (2 : Fin 3)))
      = List.replicate (m + 1) (fun _ => (2 : Fin 3)) from by
        rw [List.replicate_succ]; rfl]

/-- Backtracking through a run of constant backpointer columns. -/
theorem backtrackAux_replicate (k : Fin 3) : ∀ (n : ℕ)
    (l2 : List (Fin 3 → Fin 3)) (s : Fin 3),
    backtrackAux (List.replicate (n + 1) (fun _ => k) ++ l2) s
      = backtrackAux l2 k ++ (List.replicate n k ++ [s]) := by
  intro n
  induction n with
  | zero =>
    intro l2 s
    simp [backtrackAux]
  | succ m ih =>
    intro l2 s
    rw [List.replicate_succ, List.cons_append]
    rw [show backtrackAux
        ((fun _ => k) :: (List.replicate (m + 1) (fun _ => k) ++ l2)) s
        = backtrackAux (List.replicate (m + 1) (fun _ => k) ++ l2) k ++ [s]
      from rfl]
    rw [ih l2 k]
    simp [List.append_assoc, List.replicate_succ']

end Cyber.Facts

namespace Cyber.Facts

open Cyber Cyber.Burst Cyber.Examples

set_option maxHeartbeats 1000000 in
/-- The Viterbi backtrack on the synthetic series: 12 baseline hours in
state `0`, the four burst hours in state `2`, and the remaining 32 hours in
state `0`.  The table is always in `tbl` shape; baseline hours keep it
low-shaped (backpointers `0`), burst hours flip it high-shaped
(backpointers `2`). -/
theorem kleinbergStates_synth :
    kleinbergStates synthBase synthCounts
      = List.replicate 12 (0 : Fin 3) ++
        (List.replicate 4 (2 : Fin 3) ++ List.replicate 32 (0 : Fin 3)) := by
  have hd2 := emission_diffs 2 (by norm_num)
  have hd15 := emission_diffs 15 (by norm_num)
  have hD1 : (1 : ℝ) ≤ emission synthBase 2 1 - emission synthBase 2 0 := by
    rw [hd2.1]
    have := N1
    push_cast
    linarith
  have hD2 : (2 : ℝ) ≤ emission synthBase 2 2 - emission synthBase 2 0 := by
    rw [hd2.2]
    have := N2
    push_cast
    linarith
  have hg21 : (2 + emission synthBase 15 2 - emission synthBase 15 0)
      < (1 + emission synthBase 15 1 - emission synthBase 15 0) := by
    have e1 : (1 : ℝ) + emission synthBase 15 1 - emission synthBase 15 0
        = 1 + (emission synthBase 15 1 - emission synthBase 15 0) := by ring
    have e2 : (2 : ℝ) + emission synthBase 15 2 - emission synthBase 15 0
        = 2 + (emission synthBase 15 2 - emission synthBase 15 0) := by ring
    rw [e1, e2, hd15.1, hd15.2]
    have := N3
    push_cast
    linarith
  have hg20 : (2 + emission synthBase 15 2 - emission synthBase 15 0)
      < (0 : ℝ) := by
    have e2 : (2 : ℝ) + emission synthBase 15 2 - emission synthBase 15 0
        = 2 + (emission synthBase 15 2 - emission synthBase 15 0) := by ring
    rw [e2, hd15.2]
    have := N4
    push_cast
    linarith
  have hsplit : synthCounts
      = 2 :: (List.replicate 11 2 ++ ([15] ++ (List.replicate 3 15 ++
          ([2] ++ List.replicate 31 2)))) := by decide
  rw [hsplit]
  simp only [kleinbergStates]
  have hT0 : (fun i => emission synthBase 2 i)
      = tbl (emission synthBase 2 0)
          (emission synthBase 2 1 - emission synthBase 2 0)
          (emission synthBase 2 2 - emission synthBase 2 0) := by
    funext i
    fin_cases i
    · show emission synthBase 2 0
        = tbl (emission synthBase 2 0)
          (emission synthBase 2 1 - emission synthBase 2 0)
          (emission synthBase 2 2 - emission synthBase 2 0) 0
      simp only [tbl]
      norm_num
    · show emission synthBase 2 1
        = tbl (emission synthBase 2 0)
          (emission synthBase 2 1 - emission synthBase 2 0)
          (emission synthBase 2 2 - emission synthBase 2 0) 1
      simp only [tbl]
      norm_num
    · show emission synthBase 2 2
        = tbl (emission synthBase 2 0)
          (emission synthBase 2 1 - emission synthBase 2 0)
          (emission synthBase 2 2 - emission synthBase 2 0) 2
      simp only [tbl]
      norm_num
  rw [hT0]
  obtain ⟨x1, a1, a2, he1, ha1, ha2⟩ := dpFold_low2_run 11
    (emission synthBase 2 0) _ _ hD1 hD2 []
  have hps1 : (([] : List (Fin 3 → Fin 3)) ++
      List.replicate 11 (fun _ => (0 : Fin 3))) ++
        ([fun _ => (0 : Fin 3)] : List (Fin 3 → Fin 3))
      = List.replicate 12 (fun _ => (0 : Fin 3)) := by
    rw [List.nil_append, ← List.replicate_succ']
  have he2 : dpFold synthBase [15] (tbl x1 a1 a2)
      (([] : List (Fin 3 → Fin 3)) ++
        List.replicate 11 (fun _ => (0 : Fin 3)))
      = (tbl (x1 + emission synthBase 15 0)
          (1 + emission synthBase 15 1 - emission synthBase 15 0)
          (2 + emission synthBase 15 2 - emission synthBase 15 0),
        List.replicate 12 (fun _ => (0 : Fin 3))) := by
    simp only [dpFold]
    rw [dpStep_low synthBase 15 x1 a1 a2 ha1 ha2]
    rw [show ((tbl (x1 + emission synthBase 15 0)
        (1 + emission synthBase 15 1 - emission synthBase 15 0)
        (2 + emission synthBase 15 2 - emission synthBase 15 0),
        fun _ => (0 : Fin 3)) :
          (Fin 3 → ℝ) × (Fin 3 → Fin 3)).1
      = tbl (x1 + emission synthBase 15 0)
        (1 + emission synthBase 15 1 - emission synthBase 15 0)
        (2 + emission synthBase 15 2 - emission synthBase 15 0) from rfl]
    rw [Prod.mk.injEq]
    exact ⟨rfl, hps1⟩
  obtain ⟨x3, c1, c2, he3, hc1, hc2⟩ := dpFold_high15_run 3
    (x1 + emission synthBase 15 0) _ _ hg21 hg20
    (List.replicate 12 (fun _ => (0 : Fin 3)))
  have hps3 : ((List.replicate 12 (fun _ => (0 : Fin 3)) ++
      List.replicate 3 (fun _ => (2 : Fin 3))) ++
        ([fun _ => (2 : Fin 3)] : List (Fin 3 → Fin 3)) :
          List (Fin 3 → Fin 3))
      = List.replicate 12 (fun _ => (0 : Fin 3)) ++
        List.replicate 4 (fun _ => (2 : Fin 3)) := by
    rw [List.append_assoc, ← List.replicate_succ']
  have he4 : dpFold synthBase [2] (tbl x3 c1 c2)
      (List.replicate 12 (fun _ => (0 : Fin 3)) ++
        List.replicate 3 (fun _ => (2 : Fin 3)))
      = (tbl (x3 + c2 + emission synthBase 2 0)
          (emission synthBase 2 1 - emission synthBase 2 0)
          (emission synthBase 2 2 - emission synthBase 2 0),
        List.replicate 12 (fun _ => (0 : Fin 3)) ++
          List.replicate 4 (fun _ => (2 : Fin 3))) := by
    simp only [dpFold]
    rw [dpStep_high synthBase 2 x3 c1 c2 hc1 hc2]
    rw [Prod.mk.injEq]
    exact ⟨rfl, hps3⟩
  obtain ⟨x5, f1, f2, he5, hf1, hf2⟩ := dpFold_low2_run 31
    (x3 + c2 + emission synthBase 2 0) _ _ hD1 hD2
    (List.replicate 12 (fun _ => (0 : Fin 3)) ++
      List.replicate 4 (fun _ => (2 : Fin 3)))
  have hall : dpFold synthBase
      (List.replicate 11 2 ++ ([15] ++ (List.replicate 3 15 ++
        ([2] ++ List.replicate 31 2))))
      (tbl (emission synthBase 2 0)
        (emission synthBase 2 1 - emission synthBase 2 0)
        (emission synthBase 2 2 - emission synthBase 2 0)) []
      = (tbl x5 f1 f2,
        List.replicate 12 (fun _ => (0 : Fin 3)) ++
          (List.replicate 4 (fun _ => (2 : Fin 3)) ++
            List.replicate 31 (fun _ => (0 : Fin 3)))) := by
    rw [dpFold_append, he1]
    dsimp only
    rw [dpFold_append, he2]
    dsimp only
    rw [dpFold_append, he3]
    dsimp only
    rw [dpFold_append, he4]
    dsimp only
    rw [he5]
    rw [Prod.mk.injEq]
    exact ⟨rfl, List.append_assoc _ _ _⟩
  rw [hall]
  dsimp only
  rw [argmin3_tbl_low x5 f1 f2 (by linarith) (by linarith)]
  rw [show (List.replicate 12 (fun _ : Fin 3 => (0 : Fin 3)) ++
      (List.replicate 4 (fun _ : Fin 3 => (2 : Fin 3)) ++
        List.replicate 31 (fun _ : Fin 3 => (0 : Fin 3)))).reverse
    = List.replicate 31 (fun _ : Fin 3 => (0 : Fin 3)) ++
      (List.replicate 4 (fun _ : Fin 3 => (2 : Fin 3)) ++
        List.replicate 12 (fun _ : Fin 3 => (0 : Fin 3))) from by
      simp [List.reverse_append, List.reverse_replicate, List.append_assoc]]
  rw [show List.replicate 31 (fun _ : Fin 3 => (0 : Fin 3))
    = List.replicate (30 + 1) (fun _ : Fin 3 => (0 : Fin 3)) from rfl]
  rw [backtrackAux_replicate 0 30]
  rw [show List.replicate 4 (fun _ : Fin 3 => (2 : Fin 3))
    = List.replicate (3 + 1) (fun _ : Fin 3 => (2 : Fin 3)) from rfl]
  rw [backtrackAux_replicate 2 3]
  rw [show List.replicate 12 (fun _ : Fin 3 => (0 : Fin 3))
    = List.replicate (11 + 1) (fun _ : Fin 3 => (0 : Fin 3)) ++ [] from by
      simp]
  rw [backtrackAux_replicate 0 11]
  decide

end Cyber.Facts

namespace Cyber.Facts

open Cyber Cyber.Burst Cyber.Examples

set_option maxRecDepth 10000 in
theorem ts_eval : synthPosts.filterMap (fun p => p.posted_at)
    = (List.range 48).flatMap fun h =>
        (List.range (synthCount h)).map fun j => ((60 * h + j : ℕ) : ℚ) := by
  rfl

theorem hourOf_syn (h j : ℕ) (hj : j < 60) :
    hourOf ((60 * h + j : ℕ) : ℚ) = h := by
  unfold hourOf
  rw [Int.floor_eq_iff]
  push_cast
  constructor
  · rw [le_div_iff (by norm_num)]
    nlinarith [Nat.cast_nonneg (α := ℚ) j]
  · rw [div_lt_iff (by norm_num)]
    have : (j : ℚ) < 60 := by exact_mod_cast hj
    nlinarith

end Cyber.Facts

namespace Cyber.Facts

open Cyber Cyber.Burst Cyber.Examples

theorem hs_eval : (((List.range 48).flatMap fun h =>
    (List.range (synthCount h)).map fun j => ((60 * h + j : ℕ) : ℚ)).map hourOf)
    = (List.range 48).flatMap fun h => List.replicate (synthCount h) (h : ℤ) := by
  rw [List.map_flatMap]
  congr 1
  funext h
  rw [List.map_map]
  rw [List.eq_replicate]
  refine ⟨by simp, ?_⟩
  intro b hb
  rw [List.mem_map] at hb
  obtain ⟨j, hj, hbj⟩ := hb
  subst hbj
  show hourOf ((60 * h + j : ℕ) : ℚ) = (h : ℤ)
  refine hourOf_syn h j (lt_of_lt_of_le (List.mem_range.mp hj) ?_)
  unfold synthCount
  split_ifs <;> norm_num

set_option maxRecDepth 10000 in
theorem series_eval : prepareTimeSeries synthPosts = synthSeries := by
  simp only [prepareTimeSeries]
  rw [ts_eval, hs_eval]
  rw [if_neg (by decide)]
  decide

end Cyber.Facts

namespace Cyber.Facts

open Cyber Cyber.Burst Cyber.Examples

set_option maxRecDepth 10000 in
theorem extract_synth : extractBursts synthSeries
    (List.replicate 12 0 ++ (List.replicate 4 2 ++ List.replicate 32 0))
    = [mkBurst synthSeries
        (List.replicate 12 0 ++ (List.replicate 4 2 ++ List.replicate 32 0))
        12 16] := by
  rfl

set_option maxRecDepth 10000 in
theorem intensity_list :
    ((((List.replicate 12 0 ++ (List.replicate 4 2 ++
      List.replicate 32 0)).drop 12).take (16 - 12)).map
        fun st => (st : ℚ)) = [2, 2, 2, 2] := by decide

set_option maxRecDepth 10000 in
theorem mkBurst_synth : mkBurst synthSeries
    (List.replicate 12 0 ++ (List.replicate 4 2 ++ List.replicate 32 0)) 12 16
    = ⟨720, 900, 4, 2, 60, "kleinberg"⟩ := by
  unfold mkBurst
  rw [intensity_list]
  rw [show qmean [(2 : ℚ), 2, 2, 2] = 2 from by norm_num [qmean]]
  decide

set_option maxRecDepth 10000 in
theorem kld_synth : kleinbergBurstDetection synthSeries
    = [⟨720, 900, 4, 2, 60, "kleinberg"⟩] := by
  simp only [kleinbergBurstDetection]
  rw [if_neg (by decide : ¬(synthSeries.length < 3))]
  rw [show synthSeries.map Prod.snd = synthCounts from by decide]
  rw [show ((synthCounts.sum : ℚ) / (synthSeries.length : ℚ)) = synthBase from by
    rw [show synthCounts.sum = 148 from by decide,
      show synthSeries.length = 48 from by decide]
    norm_num [synthBase]]
  rw [if_neg (by norm_num [synthBase] : ¬(synthBase = 0))]
  rw [kleinbergStates_synth]
  rw [show ((List.replicate 12 (0 : Fin 3) ++ (List.replicate 4 (2 : Fin 3) ++
      List.replicate 32 (0 : Fin 3))).map fun s => (s : ℕ))
    = (List.replicate 12 0 ++ (List.replicate 4 2 ++ List.replicate 32 0))
    from by decide]
  rw [extract_synth, mkBurst_synth]

set_option maxRecDepth 10000 in
theorem detectBursts_synth :
    (detectBursts 0 synthPosts 24).kleinberg_bursts
      = [⟨720, 900, 4, 2, 60, "kleinberg"⟩] := by
  simp only [detectBursts]
  rw [series_eval]
  rw [if_neg (by decide : ¬(synthPosts.isEmpty = true))]
  rw [if_neg (by decide : ¬(synthSeries.length < 3))]
  rw [kld_synth]

end Cyber.Facts

namespace Cyber.Claims

open Cyber Cyber.Burst Cyber.Examples

/-- **C5 (counterexample).** On the synthetic 48-hour series (2 posts/hour
baseline, 15 posts/hour during hours 12–15) the DP detector returns exactly
one burst — over hours 12–15 — whose intensity is `2`, not `≥ 3`: with the
default 3-state model every state level is at most `2`, so the run mean can
never reach the claimed medium band. -/
theorem C5_counterexample :
    (Burst.detectBursts 0 Examples.synthPosts 24).kleinberg_bursts
        = [⟨720, 900, 4, 2, 60, "kleinberg"⟩] ∧
      ∀ b ∈ (Burst.detectBursts 0 Examples.synthPosts 24).kleinberg_bursts,
        b.intensity < 3 := by
  refine ⟨Facts.detectBursts_synth, ?_⟩
  rw [Facts.detectBursts_synth]
  intro b hb
  rw [List.mem_singleton] at hb
  subst hb
  norm_num

/-- **C5 (amended).** The synthetic burst-recall scenario yields exactly one
DP burst; it covers the burst window (minutes 720–900, i.e. hours 12–15)
and its intensity is `2` — the maximum state level of the default 3-state
model — which falls in the detector's `low` band rather than the spec's
`medium` band. -/
theorem C5_burst_recall_amended :
    ∃ b ∈ (Burst.detectBursts 0 Examples.synthPosts 24).kleinberg_bursts,
      b.method = "kleinberg" ∧ b.start_time = 720 ∧ b.end_time = 900 ∧
        b.intensity = 2 ∧
        Burst.categorizeBurstIntensity b.intensity = "low" := by
  rw [Facts.detectBursts_synth]
  exact ⟨⟨720, 900, 4, 2, 60, "kleinberg"⟩, List.mem_singleton_self _,
    rfl, rfl, rfl, rfl, by norm_num [Burst.categorizeBurstIntensity]⟩

end Cyber.Claims
